import Mathlib

/-!
Verification of the agiloft-mcp-server repository against its specification.

This file shallowly embeds the query sanitization, response-shape
normalization, tool generation/dispatch, handler envelope construction,
composite workflows, authenticated-transport retry logic and the
authentication lock of the source (src/tool_handlers.py,
src/agiloft_client.py, src/tool_generator.py, src/entity_registry.py,
src/workflow_handlers.py) and proves or refutes the frozen claims about it.
-/

namespace Agiloft

/-! ## Python string replacement

`str.replace(old, new)` replaces every non-overlapping occurrence of `old`
in the receiver by `new`, scanning left to right.  We model strings as
`List Char`; `pyReplaceF` is a fuel-indexed structural implementation so
that concrete instances reduce in the kernel, and `pyReplace` instantiates
the fuel with the list length (always sufficient, see `pyReplace_cons`). -/

/-- Fuel-indexed model of Python `s.replace(pat, rep)`:
scan left to right, replacing each non-overlapping occurrence. -/
def pyReplaceF (fuel : Nat) (s pat rep : List Char) : List Char :=
  match fuel, s with
  | _, [] => []
  | 0, s => s
  | fuel + 1, c :: cs =>
    if pat ≠ [] ∧ pat.isPrefixOf (c :: cs) then
      rep ++ pyReplaceF fuel ((c :: cs).drop pat.length) pat rep
    else
      c :: pyReplaceF fuel cs pat rep

/-- Model of Python `s.replace(pat, rep)` on character lists. -/
def pyReplace (s pat rep : List Char) : List Char :=
  pyReplaceF s.length s pat rep

theorem pyReplaceF_nil (f : Nat) (pat rep : List Char) :
    pyReplaceF f [] pat rep = [] := by
  cases f <;> rfl

theorem pyReplaceF_fuel (n : Nat) : ∀ (f g : Nat) (s pat rep : List Char),
    s.length ≤ n → s.length ≤ f → s.length ≤ g →
    pyReplaceF f s pat rep = pyReplaceF g s pat rep := by
  induction n with
  | zero =>
    intro f g s pat rep hn _ _
    have hs : s = [] := List.eq_nil_of_length_eq_zero (Nat.le_zero.mp hn)
    subst hs
    simp [pyReplaceF_nil]
  | succ n ih =>
    intro f g s pat rep hn hf hg
    cases s with
    | nil => simp [pyReplaceF_nil]
    | cons c cs =>
      cases f with
      | zero => simp at hf
      | succ f =>
        cases g with
        | zero => simp at hg
        | succ g =>
          simp only [pyReplaceF]
          split
          · next h =>
            have hp : 0 < pat.length := List.length_pos.mpr h.1
            have hd : ((c :: cs).drop pat.length).length ≤ cs.length := by
              simp only [List.length_drop, List.length_cons]
              omega
            simp only [List.length_cons] at hn hf hg
            congr 1
            exact ih f g _ pat rep (by omega) (by omega) (by omega)
          · simp only [List.length_cons] at hn hf hg
            congr 1
            exact ih f g cs pat rep (by omega) (by omega) (by omega)

theorem pyReplace_nil (pat rep : List Char) : pyReplace [] pat rep = [] := rfl

/-- Unfolding equation for `pyReplace` on a non-empty list. -/
theorem pyReplace_cons (c : Char) (cs pat rep : List Char) :
    pyReplace (c :: cs) pat rep =
      if pat ≠ [] ∧ pat.isPrefixOf (c :: cs) then
        rep ++ pyReplace ((c :: cs).drop pat.length) pat rep
      else
        c :: pyReplace cs pat rep := by
  show pyReplaceF (cs.length + 1) (c :: cs) pat rep = _
  simp only [pyReplaceF]
  split
  · next h =>
    have hp : 0 < pat.length := List.length_pos.mpr h.1
    congr 1
    apply pyReplaceF_fuel ((c :: cs).drop pat.length).length
    · exact le_refl _
    · simp only [List.length_drop, List.length_cons]; omega
    · exact le_refl _
  · rfl

/-- Characters of the replaced list come from the input or the replacement. -/
theorem mem_pyReplace (x : Char) (n : Nat) : ∀ (s pat rep : List Char),
    s.length ≤ n → x ∈ pyReplace s pat rep → x ∈ s ∨ x ∈ rep := by
  induction n with
  | zero =>
    intro s pat rep hn hx
    have hs : s = [] := List.eq_nil_of_length_eq_zero (Nat.le_zero.mp hn)
    subst hs
    simp [pyReplace_nil] at hx
  | succ n ih =>
    intro s pat rep hn hx
    cases s with
    | nil => simp [pyReplace_nil] at hx
    | cons c cs =>
      rw [pyReplace_cons] at hx
      split at hx
      · next h =>
        have hp : 0 < pat.length := List.length_pos.mpr h.1
        rcases List.mem_append.mp hx with hxr | hxr
        · exact Or.inr hxr
        · have hd : ((c :: cs).drop pat.length).length ≤ n := by
            simp only [List.length_drop, List.length_cons]
            simp only [List.length_cons] at hn
            omega
          rcases ih _ pat rep hd hxr with hm | hm
          · exact Or.inl (List.mem_of_mem_drop hm)
          · exact Or.inr hm
      · rcases List.mem_cons.mp hx with hm | hm
        · exact Or.inl (hm ▸ List.mem_cons_self c cs)
        · simp only [List.length_cons] at hn
          rcases ih cs pat rep (by omega) hm with hm2 | hm2
          · exact Or.inl (List.mem_cons_of_mem c hm2)
          · exact Or.inr hm2

/-- Removing every occurrence of the one-character pattern `[a]` leaves no `a`. -/
theorem not_mem_pyReplace_single (a : Char) (n : Nat) : ∀ (s : List Char),
    s.length ≤ n → a ∉ pyReplace s [a] [] := by
  induction n with
  | zero =>
    intro s hn
    have hs : s = [] := List.eq_nil_of_length_eq_zero (Nat.le_zero.mp hn)
    subst hs
    simp [pyReplace_nil]
  | succ n ih =>
    intro s hn
    cases s with
    | nil => simp [pyReplace_nil]
    | cons c cs =>
      simp only [List.length_cons] at hn
      rw [pyReplace_cons]
      split
      · next h =>
        simpa using ih cs (by omega)
      · next h =>
        have hca : ¬ (a = c) := by
          intro hac
          exact h ⟨by simp, by simp [List.isPrefixOf, hac]⟩
        intro hmem
        rcases List.mem_cons.mp hmem with hm | hm
        · exact hca hm
        · exact ih cs (by omega) hm

/-- If the head of the pattern never occurs in `s`, replacement is the identity. -/
theorem pyReplace_of_not_mem (a : Char) (pt rep : List Char) :
    ∀ (s : List Char), a ∉ s → pyReplace s (a :: pt) rep = s := by
  intro s
  induction s with
  | nil => intro _; rfl
  | cons c cs ih =>
    intro hmem
    rw [pyReplace_cons]
    have hca : ¬ (a = c) := fun hac => hmem (hac ▸ List.mem_cons_self c cs)
    have hnp : ¬ ((a :: pt) ≠ [] ∧ (a :: pt).isPrefixOf (c :: cs)) := by
      rintro ⟨-, hpre⟩
      simp only [List.isPrefixOf, Bool.and_eq_true, beq_iff_eq] at hpre
      exact hca hpre.1
    rw [if_neg hnp, ih (fun hx => hmem (List.mem_cons_of_mem c hx))]

/-- Removing occurrences of a pattern not containing `q` preserves the
number of occurrences of `q`. -/
theorem count_pyReplace_erase (q : Char) (pat : List Char) (hq : q ∉ pat)
    (n : Nat) : ∀ (s : List Char), s.length ≤ n →
    (pyReplace s pat []).count q = s.count q := by
  induction n with
  | zero =>
    intro s hn
    have hs : s = [] := List.eq_nil_of_length_eq_zero (Nat.le_zero.mp hn)
    subst hs
    simp [pyReplace_nil]
  | succ n ih =>
    intro s hn
    cases s with
    | nil => simp [pyReplace_nil]
    | cons c cs =>
      simp only [List.length_cons] at hn
      rw [pyReplace_cons]
      split
      · next h =>
        have hp : 0 < pat.length := List.length_pos.mpr h.1
        have hpre : pat <+: (c :: cs) := by
          exact List.isPrefixOf_iff_prefix.mp h.2
        rcases hpre with ⟨t, ht⟩
        have hdrop : (c :: cs).drop pat.length = t := by
          rw [← ht, List.drop_left]
        have hlen : t.length ≤ n := by
          have : pat.length + t.length = cs.length + 1 := by
            have := congrArg List.length ht
            simpa [List.length_append] using this
          omega
        have hcount : (c :: cs).count q = t.count q := by
          rw [← ht, List.count_append, List.count_eq_zero.mpr hq]
          omega
        rw [List.nil_append, hdrop, ih t hlen, hcount]
      · rw [List.count_cons, List.count_cons, ih cs (by omega)]

/-- Doubling quotes: replacing `[q]` by `[q, q]` doubles the count of `q`. -/
theorem count_pyReplace_double (q : Char) (n : Nat) : ∀ (s : List Char),
    s.length ≤ n → (pyReplace s [q] [q, q]).count q = 2 * s.count q := by
  induction n with
  | zero =>
    intro s hn
    have hs : s = [] := List.eq_nil_of_length_eq_zero (Nat.le_zero.mp hn)
    subst hs
    simp [pyReplace_nil]
  | succ n ih =>
    intro s hn
    cases s with
    | nil => simp [pyReplace_nil]
    | cons c cs =>
      simp only [List.length_cons] at hn
      rw [pyReplace_cons]
      split
      · next h =>
        have hqc : q = c := by
          have := h.2
          simp only [List.isPrefixOf, Bool.and_eq_true, beq_iff_eq] at this
          exact this.1
        subst hqc
        simp only [List.length_cons, List.drop_succ_cons, List.length_nil,
          List.drop_zero]
        rw [List.count_append, ih cs (by omega)]
        simp [List.count_cons]
        omega
      · next h =>
        have hcq : ¬ (q = c) := by
          intro hqc
          exact h ⟨by simp, by simp [List.isPrefixOf, hqc]⟩
        have hcq2 : ¬ (c = q) := fun hh => hcq hh.symm
        rw [List.count_cons, List.count_cons, ih cs (by omega)]
        simp [hcq2]

/-- Does the list start with the character `a`? -/
def headIs (a : Char) : List Char → Bool
  | [] => false
  | c :: _ => c == a

/-- Does the character list contain two adjacent copies of `a`
(i.e. the two-character substring `aa`)? -/
def hasPair (a : Char) : List Char → Bool
  | x :: y :: t => (x == a && y == a) || hasPair a (y :: t)
  | _ => false

theorem hasPair_cons (a x : Char) (l : List Char) :
    hasPair a (x :: l) = ((x == a) && headIs a l || hasPair a l) := by
  cases l <;> simp [hasPair, headIs]

theorem headIs_pyReplace (a c : Char) (t : List Char) (hc : ¬ c = a) :
    headIs a (pyReplace (c :: t) [a, a] []) = false := by
  rw [pyReplace_cons]
  have hnp : ¬ ([a, a] ≠ [] ∧ [a, a].isPrefixOf (c :: t)) := by
    rintro ⟨-, hp⟩
    simp only [List.isPrefixOf, Bool.and_eq_true, beq_iff_eq] at hp
    exact hc hp.1.symm
  rw [if_neg hnp]
  simp [headIs, fun hh => hc (by exact hh)]

/-- After removing every left-to-right occurrence of the two-character
pattern `aa`, the result contains no adjacent pair `aa` any more. -/
theorem hasPair_pyReplace (a : Char) (n : Nat) : ∀ s : List Char,
    s.length ≤ n → hasPair a (pyReplace s [a, a] []) = false := by
  induction n with
  | zero =>
    intro s hn
    have hs : s = [] := List.eq_nil_of_length_eq_zero (Nat.le_zero.mp hn)
    subst hs
    simp [pyReplace_nil, hasPair]
  | succ n ih =>
    intro s hn
    match s with
    | [] => simp [pyReplace_nil, hasPair]
    | [c] =>
      rw [pyReplace_cons]
      have hnp : ¬ ([a, a] ≠ [] ∧ [a, a].isPrefixOf [c]) := by
        rintro ⟨-, hp⟩
        simp [List.isPrefixOf] at hp
      rw [if_neg hnp]
      simp [pyReplace_nil, hasPair]
    | c1 :: c2 :: t =>
      simp only [List.length_cons] at hn
      rw [pyReplace_cons]
      split
      · next h =>
        simp only [List.isPrefixOf, Bool.and_eq_true, beq_iff_eq] at h
        simp only [List.length_cons, List.drop_succ_cons, List.length_nil,
          List.drop_zero, List.nil_append]
        exact ih t (by omega)
      · next h =>
        rw [hasPair_cons]
        have hrec : hasPair a (pyReplace (c2 :: t) [a, a] []) = false :=
          ih (c2 :: t) (by simpa using Nat.le_of_succ_le_succ hn)
        by_cases hc1 : c1 = a
        · have hc2 : ¬ c2 = a := by
            intro hc2
            exact h ⟨by simp, by simp [List.isPrefixOf, hc1, hc2]⟩
          rw [headIs_pyReplace a c2 t hc2, hrec]
          simp
        · rw [hrec]
          simp [hc1]

/-! ## Query sanitization (src/tool_handlers.py)

`_sanitize_query_value` (lines 32-37): single quotes doubled, then literal
`--` removed, then literal `;` removed. -/

/-- The single-quote character. -/
def quoteC : Char := Char.ofNat 39

/-- `_sanitize_query_value` on character lists: the three `str.replace`
calls of src/tool_handlers.py lines 34-36 in source order. -/
def sanitizeChars (s : List Char) : List Char :=
  pyReplace (pyReplace (pyReplace s [quoteC] [quoteC, quoteC]) [Char.ofNat 45, Char.ofNat 45] [])
    [Char.ofNat 59] []

/-- String-level wrapper of `_sanitize_query_value`. -/
def sanitizeQueryValue (s : String) : String :=
  String.mk (sanitizeChars s.toList)

/-- Whether a string contains the literal substring `--`. -/
def containsDashDash (s : String) : Bool :=
  hasPair (Char.ofNat 45) s.toList

/-- The free-text field query built by `handle_search`
(src/tool_handlers.py line 112): `{text_field}~='{sanitized}'`. -/
def fieldQuery (textField : String) (query : String) : String :=
  textField ++ "~=" ++ String.mk [quoteC] ++ sanitizeQueryValue query ++ String.mk [quoteC]

/-! ## Query classification (src/tool_handlers.py lines 40-49)

`_is_structured_query` runs a handful of case-insensitive regex searches:
`\b\w+\s*[=<>!]+\s*`, the keywords AND / OR / LIKE / IN / NOT / BETWEEN
with word boundaries, and `\bIS\b\s+\bNULL\b`.  We model each search
directly as a scan over the character list. -/

/-- `\w`: ASCII word character (the queries at hand are ASCII). -/
def isWordChar (c : Char) : Bool :=
  c.isAlphanum || c == Char.ofNat 95

/-- One of the comparison-operator characters `[=<>!]`. -/
def isOpChar (c : Char) : Bool :=
  c == Char.ofNat 61 || c == Char.ofNat 60 || c == Char.ofNat 62 || c == Char.ofNat 33

/-- The characters of the keyword `null`. -/
def nullKw : List Char :=
  [Char.ofNat 110, Char.ofNat 117, Char.ofNat 108, Char.ofNat 108]

/-- After optional whitespace (`\s*`), does an operator character follow? -/
def opAfterSpaces : List Char → Bool
  | [] => false
  | c :: t => if isOpChar c then true else if c.isWhitespace then opAfterSpaces t else false

/-- Search for `\b\w+\s*[=<>!]+`: some word character followed (after
optional whitespace) by a comparison operator. -/
def hasFieldOpPattern : List Char → Bool
  | [] => false
  | c :: t => (isWordChar c && opAfterSpaces t) || hasFieldOpPattern t

/-- Case-insensitive literal prefix match; returns the rest on success. -/
def dropPrefixCI : List Char → List Char → Option (List Char)
  | [], rest => some rest
  | _ :: _, [] => none
  | k :: kt, c :: ct => if c.toLower == k.toLower then dropPrefixCI kt ct else none

/-- Word boundary after a keyword: end of string or a non-word character. -/
def boundaryAfter : List Char → Bool
  | [] => true
  | c :: _ => !isWordChar c

/-- Does the keyword (all word characters) match here, with a word boundary
after it? -/
def keywordHere (kw : List Char) (s : List Char) : Bool :=
  match dropPrefixCI kw s with
  | some rest => boundaryAfter rest
  | none => false

/-- Scan for a match of `here` at a position preceded by a word boundary
(`prevIsWord` records whether the previous character was a word character). -/
def scanBoundary (here : List Char → Bool) : Bool → List Char → Bool
  | _, [] => false
  | prevIsWord, c :: t =>
    (!prevIsWord && here (c :: t)) || scanBoundary here (isWordChar c) t

/-- `\s+` then `NULL` with a trailing word boundary. -/
def spacesThenNull : List Char → Bool
  | [] => false
  | c :: t =>
    c.isWhitespace &&
      ((match dropPrefixCI nullKw t with
        | some rest => boundaryAfter rest
        | none => false) || spacesThenNull t)

/-- `\bIS\b\s+\bNULL\b` matching at this position. -/
def isNullHere (s : List Char) : Bool :=
  match dropPrefixCI [Char.ofNat 105, Char.ofNat 115] s with
  | some rest => spacesThenNull rest
  | none => false

/-- `_is_structured_query` from src/tool_handlers.py lines 40-49: the
field/operator pattern, the boolean and SQL keywords, or `IS NULL`. -/
def isStructuredQuery (s : String) : Bool :=
  let cs := s.toList
  hasFieldOpPattern cs ||
  scanBoundary (keywordHere "and".toList) false cs ||
  scanBoundary (keywordHere "or".toList) false cs ||
  scanBoundary (keywordHere "like".toList) false cs ||
  scanBoundary (keywordHere "in".toList) false cs ||
  scanBoundary (keywordHere "not".toList) false cs ||
  scanBoundary (keywordHere "between".toList) false cs ||
  scanBoundary isNullHere false cs

/-!  Claim C1 theorems. -/

/-- C1 counterexample: the input `-;-` is a free-text (not structured)
query, yet its sanitized value is exactly `--`: removing `;` (the last
replace of `_sanitize_query_value`) splices the two dashes together after
the `--`-removal pass already ran, so the sanitized value interpolated into
the field queries does contain a literal `--`, refuting the claim. -/
theorem claim_c1_counterexample :
    isStructuredQuery "-;-" = false ∧
    sanitizeQueryValue "-;-" = "--" ∧
    containsDashDash (sanitizeQueryValue "-;-") = true := by
  refine ⟨by decide, by decide, by decide⟩

/-- C1 amended: for every input string, the sanitized value produced by
`_sanitize_query_value` contains no literal `;`, the number of single
quotes is exactly doubled, and — provided the input contains no `;` —
the sanitized value contains no literal `--` either.  (The unconditional
`--`-freedom of the original claim is false, see
`claim_c1_counterexample`.) -/
theorem claim_c1_sanitized_query (s : String) :
    Char.ofNat 59 ∉ (sanitizeQueryValue s).toList ∧
    (sanitizeQueryValue s).toList.count quoteC = 2 * s.toList.count quoteC ∧
    (Char.ofNat 59 ∉ s.toList → containsDashDash (sanitizeQueryValue s) = false) := by
  have htl : (sanitizeQueryValue s).toList = sanitizeChars s.toList := rfl
  set l := s.toList with hl
  set d1 := pyReplace l [quoteC] [quoteC, quoteC] with hd1
  set d2 := pyReplace d1 [Char.ofNat 45, Char.ofNat 45] [] with hd2
  have hchars : sanitizeChars l = pyReplace d2 [Char.ofNat 59] [] := rfl
  refine ⟨?_, ?_, ?_⟩
  · rw [htl, hchars]
    exact not_mem_pyReplace_single (Char.ofNat 59) d2.length d2 le_rfl
  · rw [htl, hchars]
    rw [count_pyReplace_erase quoteC [Char.ofNat 59] (by decide) d2.length d2 le_rfl]
    rw [hd2, count_pyReplace_erase quoteC [Char.ofNat 45, Char.ofNat 45] (by decide)
      d1.length d1 le_rfl]
    exact count_pyReplace_double quoteC l.length l le_rfl
  · intro hsemi
    have hs1 : Char.ofNat 59 ∉ d1 := by
      intro hmem
      rcases mem_pyReplace (Char.ofNat 59) l.length l [quoteC] [quoteC, quoteC] le_rfl hmem
        with hm | hm
      · exact hsemi hm
      · simp [quoteC] at hm
    have hs2 : Char.ofNat 59 ∉ d2 := by
      intro hmem
      rcases mem_pyReplace (Char.ofNat 59) d1.length d1 [Char.ofNat 45, Char.ofNat 45] []
        le_rfl hmem with hm | hm
      · exact hs1 hm
      · simp at hm
    have hid : pyReplace d2 [Char.ofNat 59] [] = d2 :=
      pyReplace_of_not_mem (Char.ofNat 59) [] [] d2 hs2
    show hasPair (Char.ofNat 45) (sanitizeChars l) = false
    rw [hchars, hid, hd2]
    exact hasPair_pyReplace (Char.ofNat 45) d1.length d1 le_rfl

/-- Witness for `claim_c1_sanitized_query` at the concrete input
`O'Brien contract`, which contains no semicolon. -/
theorem claim_c1_sanitized_query_witness :
    containsDashDash (sanitizeQueryValue "O-Brien contract") = false :=
  (claim_c1_sanitized_query "O-Brien contract").2.2 (by decide)

/-! ## Python values

A small model of the JSON-like Python values flowing through the handlers:
strings, integers, booleans, `None`, lists, and dicts (association lists of
string keys in insertion order, keys unique as in a Python dict). -/

inductive PyVal where
  | str : String → PyVal
  | int : Int → PyVal
  | bool : Bool → PyVal
  | none : PyVal
  | list : List PyVal → PyVal
  | dict : List (String × PyVal) → PyVal

mutual

/-- Structural equality on `PyVal`, modelling Python `==` on these values. -/
def PyVal.beq : PyVal → PyVal → Bool
  | .str a, .str b => a == b
  | .int a, .int b => a == b
  | .bool a, .bool b => a == b
  | .none, .none => true
  | .list a, .list b => PyVal.beqList a b
  | .dict a, .dict b => PyVal.beqDict a b
  | _, _ => false

/-- Elementwise equality of `PyVal` lists. -/
def PyVal.beqList : List PyVal → List PyVal → Bool
  | [], [] => true
  | a :: as2, b :: bs => PyVal.beq a b && PyVal.beqList as2 bs
  | _, _ => false

/-- Entrywise equality of `PyVal` dicts. -/
def PyVal.beqDict : List (String × PyVal) → List (String × PyVal) → Bool
  | [], [] => true
  | (k1, v1) :: as2, (k2, v2) :: bs =>
    k1 == k2 && PyVal.beq v1 v2 && PyVal.beqDict as2 bs
  | _, _ => false

end

instance : BEq PyVal := ⟨PyVal.beq⟩

/-- First value stored under key `k`, modelling Python `d.get(k)`
(keys of a Python dict are unique, so first = only). -/
def pyGet {α : Type} (k : String) : List (String × α) → Option α
  | [] => Option.none
  | (k2, v) :: t => if k2 = k then some v else pyGet k t

/-- Python `d[k] = v`: replace the value at `k`, keeping insertion order,
or append a fresh entry at the end if `k` is absent. -/
def pySet {α : Type} (k : String) (v : α) : List (String × α) → List (String × α)
  | [] => [(k, v)]
  | (k2, v2) :: t => if k2 = k then (k2, v) :: t else (k2, v2) :: pySet k v t

theorem pyGet_pySet_same {α : Type} (k : String) (v : α) :
    ∀ d : List (String × α), pyGet k (pySet k v d) = some v := by
  intro d
  induction d with
  | nil => simp [pySet, pyGet]
  | cons p t ih =>
    obtain ⟨k2, v2⟩ := p
    by_cases hk : k2 = k
    · simp [pySet, pyGet, hk]
    · simp [pySet, pyGet, hk, ih]

theorem pyGet_pySet_other {α : Type} (k g : String) (v : α) (hkg : g ≠ k) :
    ∀ d : List (String × α), pyGet g (pySet k v d) = pyGet g d := by
  have hkg2 : ¬ (k = g) := fun hh => hkg hh.symm
  intro d
  induction d with
  | nil => simp [pySet, pyGet, hkg2]
  | cons p t ih =>
    obtain ⟨k2, v2⟩ := p
    by_cases hk : k2 = k
    · subst hk
      simp [pySet, pyGet, hkg2]
    · simp [pySet, pyGet, hk, ih]

/-! ## Linked-field colon prefixing (src/workflow_handlers.py lines 27-45)

`_ensure_linked_prefix(data, linked_fields)` copies the dict and, for each
linked field whose value is a non-empty string not already starting with
`:`, replaces the value by `":" + value`.  Python `value.startswith(":")`
is modelled by `headIs` on the character list. -/

/-- `CONTRACT_LINKED_FIELDS` from src/workflow_handlers.py lines 27-31. -/
def CONTRACT_LINKED_FIELDS : List String :=
  ["company_name", "contract_type", "internal_contract_owner"]

/-- One iteration of the `for field_name in linked_fields` loop body of
`_ensure_linked_prefix`. -/
def linkedPrefixStep (res : List (String × PyVal)) (f : String) :
    List (String × PyVal) :=
  match pyGet f res with
  | some (.str v) =>
    if v ≠ "" ∧ headIs (Char.ofNat 58) v.toList = false then
      pySet f (.str (":" ++ v)) res
    else res
  | _ => res

/-- `_ensure_linked_prefix` (the `dict(data)` copy is the identity in this
functional model; the loop is a fold over the linked-field collection). -/
def ensureLinkedColon (data : List (String × PyVal)) (linked : List String) :
    List (String × PyVal) :=
  linked.foldl linkedPrefixStep data

/-- A stored value that the loop body of `_ensure_linked_prefix` leaves
alone: not a string, or empty, or already starting with `:`. -/
def noColonNeeded (ov : Option PyVal) : Prop :=
  ∀ v : String, ov = some (.str v) → v = "" ∨ headIs (Char.ofNat 58) v.toList = true

theorem linkedPrefixStep_get_other (f g : String) (hfg : g ≠ f)
    (res : List (String × PyVal)) :
    pyGet g (linkedPrefixStep res f) = pyGet g res := by
  unfold linkedPrefixStep
  cases h : pyGet f res with
  | none => rfl
  | some v =>
    cases v <;> try rfl
    next s =>
      by_cases hc : s ≠ "" ∧ headIs (Char.ofNat 58) s.toList = false
      · simp only [if_pos hc]
        exact pyGet_pySet_other f g _ hfg res
      · simp only [if_neg hc]

theorem linkedPrefixStep_noop (f : String) (res : List (String × PyVal))
    (h : noColonNeeded (pyGet f res)) : linkedPrefixStep res f = res := by
  unfold linkedPrefixStep
  cases hg : pyGet f res with
  | none => rfl
  | some v =>
    cases v <;> try rfl
    next s =>
      have hc : ¬ (s ≠ "" ∧ headIs (Char.ofNat 58) s.toList = false) := by
        rintro ⟨hne, hb⟩
        rcases h s hg with hs | hs
        · exact hne hs
        · rw [hs] at hb
          cases hb
      show (if s ≠ "" ∧ headIs (Char.ofNat 58) s.toList = false then
          pySet f (PyVal.str (":" ++ s)) res
        else res) = res
      rw [if_neg hc]

theorem headIs_colon_append (v : String) :
    headIs (Char.ofNat 58) (":" ++ v).toList = true := by
  show headIs (Char.ofNat 58) (":" ++ v).data = true
  rw [String.data_append]
  rfl

theorem noColonNeeded_after_step (f : String) (res : List (String × PyVal)) :
    noColonNeeded (pyGet f (linkedPrefixStep res f)) := by
  unfold linkedPrefixStep
  cases hg : pyGet f res with
  | none => intro v hv; rw [hg] at hv; cases hv
  | some w =>
    cases w with
    | str s =>
      by_cases hc : s ≠ "" ∧ headIs (Char.ofNat 58) s.toList = false
      · simp only [if_pos hc]
        intro v hv
        rw [pyGet_pySet_same] at hv
        have hvs : v = ":" ++ s := by
          injection hv with hv2
          injection hv2 with hv3
          exact hv3.symm
        right
        rw [hvs]
        exact headIs_colon_append s
      · simp only [if_neg hc]
        intro v hv
        rw [hg] at hv
        have hvs : v = s := by
          injection hv with hv2
          injection hv2 with hv3
          exact hv3.symm
        subst hvs
        by_cases he : v = ""
        · exact Or.inl he
        · right
          cases hB : headIs (Char.ofNat 58) v.toList with
          | false => exact absurd ⟨he, hB⟩ hc
          | true => rfl
    | int i => intro v hv; rw [hg] at hv; cases hv
    | bool b => intro v hv; rw [hg] at hv; cases hv
    | none => intro v hv; rw [hg] at hv; cases hv
    | list l => intro v hv; rw [hg] at hv; cases hv
    | dict d => intro v hv; rw [hg] at hv; cases hv

theorem noColonNeeded_preserved (f g : String) (res : List (String × PyVal))
    (h : noColonNeeded (pyGet f res)) :
    noColonNeeded (pyGet f (linkedPrefixStep res g)) := by
  by_cases hfg : f = g
  · subst hfg
    exact noColonNeeded_after_step f res
  · rw [linkedPrefixStep_get_other g f hfg]
    exact h

/-- A value the loop leaves alone keeps its exact stored value through one
step. -/
theorem linkedPrefixStep_get_noColon (f g : String) (res : List (String × PyVal))
    (h : noColonNeeded (pyGet f res)) :
    pyGet f (linkedPrefixStep res g) = pyGet f res := by
  by_cases hfg : f = g
  · subst hfg
    rw [linkedPrefixStep_noop f res h]
  · exact linkedPrefixStep_get_other g f hfg res

theorem fold_get_noColon (f : String) :
    ∀ (L : List String) (res : List (String × PyVal)),
    noColonNeeded (pyGet f res) →
    pyGet f (L.foldl linkedPrefixStep res) = pyGet f res := by
  intro L
  induction L with
  | nil => intro res _; rfl
  | cons g T ih =>
    intro res h
    show pyGet f (T.foldl linkedPrefixStep (linkedPrefixStep res g)) = pyGet f res
    rw [ih (linkedPrefixStep res g) (noColonNeeded_preserved f g res h)]
    exact linkedPrefixStep_get_noColon f g res h

theorem fold_preserves_noColon (f : String) :
    ∀ (L : List String) (res : List (String × PyVal)),
    noColonNeeded (pyGet f res) →
    noColonNeeded (pyGet f (L.foldl linkedPrefixStep res)) := by
  intro L
  induction L with
  | nil => intro res h; exact h
  | cons g T ih =>
    intro res h
    exact ih (linkedPrefixStep res g) (noColonNeeded_preserved f g res h)

theorem fold_noColon_all (L : List String) :
    ∀ (res : List (String × PyVal)) (f : String), f ∈ L →
    noColonNeeded (pyGet f (L.foldl linkedPrefixStep res)) := by
  induction L with
  | nil => intro res f hf; cases hf
  | cons g T ih =>
    intro res f hf
    show noColonNeeded (pyGet f (T.foldl linkedPrefixStep (linkedPrefixStep res g)))
    rcases List.mem_cons.mp hf with hfg | hfT
    · subst hfg
      exact fold_preserves_noColon f T (linkedPrefixStep res f)
        (noColonNeeded_after_step f res)
    · exact ih (linkedPrefixStep res g) f hfT

theorem fold_get_not_mem (g : String) :
    ∀ (L : List String) (res : List (String × PyVal)), g ∉ L →
    pyGet g (L.foldl linkedPrefixStep res) = pyGet g res := by
  intro L
  induction L with
  | nil => intro res _; rfl
  | cons f T ih =>
    intro res hg
    simp only [List.mem_cons, not_or] at hg
    show pyGet g (T.foldl linkedPrefixStep (linkedPrefixStep res f)) = pyGet g res
    rw [ih (linkedPrefixStep res f) hg.2]
    exact linkedPrefixStep_get_other f g hg.1 res

theorem fold_noop (L : List String) :
    ∀ res : List (String × PyVal),
    (∀ f ∈ L, noColonNeeded (pyGet f res)) →
    L.foldl linkedPrefixStep res = res := by
  induction L with
  | nil => intro res _; rfl
  | cons g T ih =>
    intro res h
    show T.foldl linkedPrefixStep (linkedPrefixStep res g) = res
    rw [linkedPrefixStep_noop g res (h g (List.mem_cons_self g T))]
    exact ih res (fun f hf => h f (List.mem_cons_of_mem g hf))

/-- C10: `_ensure_linked_prefix` is idempotent and frame-preserving: applying
it twice equals applying it once; a key outside the linked-field set is
never modified; and a linked field whose value is not a string, is empty,
or already starts with `:` keeps its exact stored value (so no value is
ever double-prefixed). -/
theorem claim_c10_ensure_linked (d : List (String × PyVal)) (L : List String) :
    ensureLinkedColon (ensureLinkedColon d L) L = ensureLinkedColon d L ∧
    (∀ g, g ∉ L → pyGet g (ensureLinkedColon d L) = pyGet g d) ∧
    (∀ f v, pyGet f d = some v → noColonNeeded (some v) →
      pyGet f (ensureLinkedColon d L) = some v) := by
  refine ⟨?_, ?_, ?_⟩
  · exact fold_noop L (ensureLinkedColon d L) (fun f hf => fold_noColon_all L d f hf)
  · intro g hg
    exact fold_get_not_mem g L d hg
  · intro f v hval hno
    have hpres := fold_get_noColon f L d (by rw [hval]; exact hno)
    show pyGet f (L.foldl linkedPrefixStep d) = some v
    rw [hpres, hval]

/-- Witness for `claim_c10_ensure_linked` on a concrete contract payload:
the non-linked key `note` and the already-prefixed `company_name` keep
their exact values. -/
theorem claim_c10_ensure_linked_witness :
    pyGet "note" (ensureLinkedColon
      [("company_name", PyVal.str ":Acme Corp"), ("note", PyVal.str "x")]
      CONTRACT_LINKED_FIELDS) = some (PyVal.str "x") ∧
    pyGet "company_name" (ensureLinkedColon
      [("company_name", PyVal.str ":Acme Corp"), ("note", PyVal.str "x")]
      CONTRACT_LINKED_FIELDS) = some (PyVal.str ":Acme Corp") := by
  constructor
  · exact (claim_c10_ensure_linked
      [("company_name", PyVal.str ":Acme Corp"), ("note", PyVal.str "x")]
      CONTRACT_LINKED_FIELDS).2.1 "note" (by decide)
  · refine (claim_c10_ensure_linked
      [("company_name", PyVal.str ":Acme Corp"), ("note", PyVal.str "x")]
      CONTRACT_LINKED_FIELDS).2.2 "company_name" (PyVal.str ":Acme Corp") rfl ?_
    intro v hv
    right
    injection hv with hv2
    injection hv2 with hv3
    rw [← hv3]
    decide

/-! ## Single-record extraction (src/agiloft_client.py lines 195-215)

`_extract_record(response, record_id)` tries, in order: a dict with a
`result` key; a dict with exactly one non-meta key (not `success`,
`message`, `errors`) whose value is a dict; a dict containing an `id` key;
a non-empty list (first element).  Otherwise it raises `AgiloftAPIError`
with a message naming the record id and the keys (or the type name). -/

/-- The keys of a dict, in insertion order. -/
def pyKeys (kvs : List (String × PyVal)) : List String :=
  kvs.map Prod.fst

/-- The non-meta keys filtered in `_extract_record` (line 201-204). -/
def nonMetaKeys (kvs : List (String × PyVal)) : List String :=
  (pyKeys kvs).filter (fun k => ¬ k ∈ (["success", "message", "errors"] : List String))

/-- The single-non-meta-dict-key shape check of `_extract_record`
lines 205-206: exactly one non-meta key, whose value is a dict. -/
def singleNonMetaDict (kvs : List (String × PyVal)) : Option (List (String × PyVal)) :=
  match nonMetaKeys kvs with
  | [k] =>
    match pyGet k kvs with
    | some (.dict r) => some r
    | _ => Option.none
  | _ => Option.none

/-- Python `type(x).__name__` for the modelled values. -/
def pyTypeName : PyVal → String
  | .str _ => "str"
  | .int _ => "int"
  | .bool _ => "bool"
  | .none => "NoneType"
  | .list _ => "list"
  | .dict _ => "dict"

/-- The `keys_info` of `_extract_record` line 212: the key list for a dict,
the type name otherwise. -/
def keysInfo : PyVal → String
  | .dict kvs => toString (pyKeys kvs)
  | v => pyTypeName v

/-- The `AgiloftAPIError` message of `_extract_record` lines 213-215. -/
def recordNotFoundMsg (recordId : Int) (resp : PyVal) : String :=
  "Record " ++ toString recordId ++ " not found in response. Keys: " ++ keysInfo resp

/-- The dict-shaped attempts of `_extract_record` (lines 197-208), in
their source order: `result` key, single non-meta dict key, bare `id`. -/
def extractFromDict (kvs : List (String × PyVal)) : Option PyVal :=
  match pyGet "result" kvs with
  | some v => some v
  | Option.none =>
    match singleNonMetaDict kvs with
    | some r => some (.dict r)
    | Option.none =>
      if (pyGet "id" kvs).isSome then some (.dict kvs) else Option.none

/-- `_extract_record` from src/agiloft_client.py lines 195-215.  A dict
failing all three dict shapes also fails the list check and raises, as in
the source. -/
def extractRecord (resp : PyVal) (recordId : Int) : Except String PyVal :=
  match resp with
  | .dict kvs =>
    match extractFromDict kvs with
    | some v => .ok v
    | Option.none => .error (recordNotFoundMsg recordId (.dict kvs))
  | .list (x :: _) => .ok x
  | _ => .error (recordNotFoundMsg recordId resp)

/-- C4: `_extract_record` normalizes the four observed response shapes in
their fixed priority order — `{result: record}` first, then a dict whose
single non-meta key wraps a dict record, then a bare dict with an `id`
key, then a non-empty list (first element) — and on any response matching
none of the four raises an API error whose message names the requested
record id and the shape-detection context (the keys seen, or the type
name for a non-dict non-list response). -/
theorem claim_c4_extract_record :
    (∀ (r : PyVal) (rid : Int),
      extractRecord (.dict [("result", r)]) rid = .ok r) ∧
    (∀ (name : String) (r : List (String × PyVal)) (rid : Int),
      ¬ name ∈ (["success", "message", "errors"] : List String) → name ≠ "result" →
      extractRecord (.dict [(name, .dict r)]) rid = .ok (.dict r)) ∧
    (∀ (kvs : List (String × PyVal)) (rid : Int),
      pyGet "result" kvs = Option.none → singleNonMetaDict kvs = Option.none →
      (pyGet "id" kvs).isSome →
      extractRecord (.dict kvs) rid = .ok (.dict kvs)) ∧
    (∀ (x : PyVal) (xs : List PyVal) (rid : Int),
      extractRecord (.list (x :: xs)) rid = .ok x) ∧
    (∀ (kvs : List (String × PyVal)) (rid : Int),
      pyGet "result" kvs = Option.none → singleNonMetaDict kvs = Option.none →
      pyGet "id" kvs = Option.none →
      extractRecord (.dict kvs) rid =
        .error ("Record " ++ toString rid ++ " not found in response. Keys: "
          ++ toString (pyKeys kvs))) ∧
    (∀ rid : Int, extractRecord (.list []) rid =
      .error ("Record " ++ toString rid ++ " not found in response. Keys: " ++ "list")) ∧
    (∀ (s : String) (rid : Int), extractRecord (.str s) rid =
      .error ("Record " ++ toString rid ++ " not found in response. Keys: " ++ "str")) := by
  refine ⟨?_, ?_, ?_, ?_, ?_, ?_, ?_⟩
  · intro r rid
    rfl
  · intro name r rid hmeta hres
    have h1 : pyGet "result" [(name, PyVal.dict r)] = Option.none := by
      simp [pyGet, hres]
    have h2 : singleNonMetaDict [(name, PyVal.dict r)] = some r := by
      unfold singleNonMetaDict nonMetaKeys pyKeys
      simp only [List.map_cons, List.map_nil, List.filter]
      rw [decide_eq_true (by exact hmeta)]
      simp [pyGet]
    have hd : extractFromDict [(name, PyVal.dict r)] = some (.dict r) := by
      unfold extractFromDict
      rw [h1, h2]
    show (match extractFromDict [(name, PyVal.dict r)] with
      | some v => Except.ok v
      | Option.none =>
        Except.error (recordNotFoundMsg rid (PyVal.dict [(name, PyVal.dict r)]))) =
      Except.ok (PyVal.dict r)
    rw [hd]
  · intro kvs rid h1 h2 h3
    have hd : extractFromDict kvs = some (.dict kvs) := by
      unfold extractFromDict
      rw [h1, h2, if_pos h3]
    show (match extractFromDict kvs with
      | some v => Except.ok v
      | Option.none => Except.error (recordNotFoundMsg rid (PyVal.dict kvs))) =
      Except.ok (PyVal.dict kvs)
    rw [hd]
  · intro x xs rid
    rfl
  · intro kvs rid h1 h2 h3
    have hd : extractFromDict kvs = Option.none := by
      unfold extractFromDict
      rw [h1, h2, h3]
      rfl
    show (match extractFromDict kvs with
      | some v => Except.ok v
      | Option.none => Except.error (recordNotFoundMsg rid (PyVal.dict kvs))) =
      Except.error ("Record " ++ toString rid ++ " not found in response. Keys: "
        ++ toString (pyKeys kvs))
    rw [hd]
    rfl
  · intro rid
    rfl
  · intro s rid
    rfl

/-- Witness for `claim_c4_extract_record`: all four shapes wrapping the
spec record `{"id": 7, "x": "y"}` return the same logical record, and a
dict matching no shape produces the keyed error message. -/
theorem claim_c4_extract_record_witness :
    extractRecord (.dict [("result", .dict [("id", .int 7), ("x", .str "y")])]) 7 =
      .ok (.dict [("id", .int 7), ("x", .str "y")]) ∧
    extractRecord (.dict [("contract", .dict [("id", .int 7), ("x", .str "y")])]) 7 =
      .ok (.dict [("id", .int 7), ("x", .str "y")]) ∧
    extractRecord (.dict [("id", .int 7), ("x", .str "y")]) 7 =
      .ok (.dict [("id", .int 7), ("x", .str "y")]) ∧
    extractRecord (.list [.dict [("id", .int 7), ("x", .str "y")]]) 7 =
      .ok (.dict [("id", .int 7), ("x", .str "y")]) ∧
    extractRecord (.dict [("foo", .int 1), ("bar", .int 2)]) 7 =
      .error "Record 7 not found in response. Keys: [foo, bar]" := by
  refine ⟨?_, ?_, ?_, ?_, ?_⟩
  · exact claim_c4_extract_record.1 (.dict [("id", .int 7), ("x", .str "y")]) 7
  · exact claim_c4_extract_record.2.1 "contract" [("id", .int 7), ("x", .str "y")] 7
      (by decide) (by decide)
  · exact claim_c4_extract_record.2.2.1 [("id", .int 7), ("x", .str "y")] 7
      rfl rfl rfl
  · exact claim_c4_extract_record.2.2.2.1 (.dict [("id", .int 7), ("x", .str "y")]) [] 7
  · exact claim_c4_extract_record.2.2.2.2.1 [("foo", .int 1), ("bar", .int 2)] 7
      rfl rfl rfl

/-! ## Entity registry (src/entity_registry.py)

`EntityConfig` carries the registry metadata the tool generator and
handlers consume (the `key_fields` / display-name documentation strings,
used only to build tool descriptions and JSON schemas, are elided; every
field consulted by control flow is present).  The operation-support flags
default to `True` and no registry entry overrides them. -/

structure EntityConfig where
  key : String
  keyPlural : String
  apiPath : String
  defaultSearchFields : List String
  requiredFields : List String
  textSearchFields : List String
  supportsAttach : Bool := true
  supportsActionButton : Bool := true
  supportsEvaluateFormat : Bool := true
deriving DecidableEq, Repr

/-- `ENTITY_REGISTRY` from src/entity_registry.py lines 46-255
(insertion-ordered dict key → config). -/
def ENTITY_REGISTRY : List (String × EntityConfig) :=
  [("contract",
    { key := "contract", keyPlural := "contracts", apiPath := "/contract",
      textSearchFields := ["contract_title1", "company_name"],
      defaultSearchFields :=
        ["id", "record_type", "contract_title1", "company_name",
         "contract_amount", "contract_end_date", "internal_contract_owner",
         "date_signed", "wfstate", "contract_type"],
      requiredFields :=
        ["record_type", "auto_renewal_term_in_months", "confidential",
         "evaluation_frequency"] }),
   ("company",
    { key := "company", keyPlural := "companies", apiPath := "/company",
      textSearchFields := ["company_name"],
      defaultSearchFields :=
        ["id", "company_name", "type_of_company", "status",
         "industry", "main_city", "country", "number_of_active_contracts"],
      requiredFields := ["company_name", "type_of_company", "status"] }),
   ("attachment",
    { key := "attachment", keyPlural := "attachments", apiPath := "/attachment",
      textSearchFields := ["title"],
      defaultSearchFields :=
        ["id", "title", "status", "attachment_type", "contract_id",
         "expiration_date", "document_source", "sorting_order"],
      requiredFields := ["attached_file", "title", "status", "expiration_date"] }),
   ("contact",
    { key := "contact", keyPlural := "contacts", apiPath := "/contacts",
      textSearchFields := ["full_name", "company_name"],
      defaultSearchFields :=
        ["id", "full_name", "email", "company_name", "status",
         "type_of_contact", "direct_phone", "title"],
      requiredFields := ["sso_auth_method"] }),
   ("employee",
    { key := "employee", keyPlural := "employees", apiPath := "/contacts.employees",
      textSearchFields := ["full_name", "company_name"],
      defaultSearchFields :=
        ["id", "full_name", "email", "company_name", "status",
         "type_of_contact", "department0", "title", "_login"],
      requiredFields := ["_login", "password", "sso_auth_method"] }),
   ("customer",
    { key := "customer", keyPlural := "customers", apiPath := "/contacts.customer",
      textSearchFields := ["full_name", "company_name"],
      defaultSearchFields :=
        ["id", "full_name", "email", "company_name", "status",
         "type_of_contact", "title", "_login"],
      requiredFields := ["_login", "password", "sso_auth_method"] }),
   ("contract_type",
    { key := "contract_type", keyPlural := "contract_types",
      apiPath := "/contract_type",
      textSearchFields := ["contract_type"],
      defaultSearchFields :=
        ["id", "contract_type", "party_type", "status", "description",
         "sort_order", "available_for_record_types", "default_renewal_type",
         "default_contract_term_in_months", "default_workflow_title",
         "self_serve_available", "uses_tasks"],
      requiredFields :=
        ["contract_type", "party_type", "uses_tasks", "default_cost_type",
         "default_contract_term_in_months", "default_autorenewal_term_in_months",
         "default_days_in_advance_to_cancel_auto_renewal"] })]

/-- `get_entity` from src/entity_registry.py lines 258-263 (`ValueError`
on an unknown key is the `Option.none` case at call sites). -/
def getEntity (k : String) : Option EntityConfig :=
  pyGet k ENTITY_REGISTRY

/-! ## Tool generation (src/tool_generator.py) -/

/-- `_tool_name` (lines 30-33): `agiloft_{action}_{entity-or-plural}`. -/
def toolNameOf (action : String) (e : EntityConfig) (plural : Bool) : String :=
  "agiloft_" ++ action ++ "_" ++ (if plural then e.keyPlural else e.key)

/-- Only `_gen_search_tool` passes `plural=True` to `_tool_name`; every
other generator uses the singular key. -/
def opUsesPlural (op : String) : Bool :=
  op = "search"

/-- The tool name emitted by the generator registered for `op`. -/
def opToolName (op : String) (e : EntityConfig) : String :=
  toolNameOf op e (opUsesPlural op)

/-- The keys of the `_GENERATORS` dict (lines 394-407). -/
def GENERATOR_OPS : List String :=
  ["search", "get", "create", "update", "delete", "upsert",
   "attach_file", "retrieve_attachment", "remove_attachment",
   "get_attachment_info", "action_button", "evaluate_format"]

/-- The `ops` list built per entity inside `generate_tools`
(lines 419-431): CRUD + search, upsert, then the capability-gated ops. -/
def applicableOps (e : EntityConfig) : List String :=
  ["search", "get", "create", "update", "delete"] ++ ["upsert"] ++
  (if e.supportsAttach then
    ["attach_file", "retrieve_attachment", "remove_attachment",
     "get_attachment_info"] else []) ++
  (if e.supportsActionButton then ["action_button"] else []) ++
  (if e.supportsEvaluateFormat then ["evaluate_format"] else [])

/-- A generated tool descriptor, projected to the claim-relevant parts:
its name and its dispatch routing pair (the JSON parameter schema and the
description text are elided). -/
structure GenTool where
  name : String
  entityKey : String
  action : String
deriving DecidableEq, Repr

/-- `generate_tools` (lines 410-440): one pass over the registry, one tool
appended per applicable op with a registered generator, and the dispatch
dict assignment `dispatch[tool.name] = (entity.key, action)`. -/
def generateTools : List GenTool × List (String × (String × String)) :=
  ENTITY_REGISTRY.foldl
    (fun acc ent =>
      (applicableOps ent.2).foldl
        (fun acc2 op =>
          if op ∈ GENERATOR_OPS then
            let t : GenTool := ⟨opToolName op ent.2, ent.2.key, op⟩
            (acc2.1 ++ [t], pySet t.name (ent.2.key, op) acc2.2)
          else acc2)
        acc)
    ([], [])

set_option maxRecDepth 10000 in
/-- C3: the generator emits exactly one tool per (entity, applicable
operation) pair — for this registry the applicable set of every entity is
the full twelve-operation set, since `supports_attach`,
`supports_action_button` and `supports_evaluate_format` all default to
true — the generated names are pairwise distinct, and the dispatch map's
key sequence coincides with the generated tool-name sequence (no orphan on
either side; every dispatch entry routes to its tool's entity and action). -/
theorem claim_c3_generate_tools :
    (ENTITY_REGISTRY.all (fun ent => applicableOps ent.2 = GENERATOR_OPS)) = true ∧
    ((generateTools.1.map GenTool.name).Nodup) ∧
    (generateTools.2.map Prod.fst = generateTools.1.map GenTool.name) ∧
    (∀ ent ∈ ENTITY_REGISTRY, ∀ op ∈ applicableOps ent.2,
      (generateTools.1.filter
        (fun t => t.entityKey = ent.2.key ∧ t.action = op)).length = 1) ∧
    (∀ t ∈ generateTools.1,
      ∃ ent ∈ ENTITY_REGISTRY, t.entityKey = ent.2.key ∧
        t.action ∈ applicableOps ent.2 ∧ t.name = opToolName t.action ent.2) ∧
    (∀ t ∈ generateTools.1,
      pyGet t.name generateTools.2 = some (t.entityKey, t.action)) := by
  refine ⟨by decide, by decide, by decide, by decide, by decide, by decide⟩

/-- Witness for `claim_c3_generate_tools` at the contract entity: the
search tool uses the plural name, dispatch routes it, and there is exactly
one (contract, search) tool. -/
theorem claim_c3_generate_tools_witness :
    (generateTools.1.filter
      (fun t => t.entityKey = "contract" ∧ t.action = "search")).length = 1 ∧
    pyGet "agiloft_search_contracts" generateTools.2 = some ("contract", "search") := by
  constructor
  · exact claim_c3_generate_tools.2.2.2.1
      ("contract",
        { key := "contract", keyPlural := "contracts", apiPath := "/contract",
          textSearchFields := ["contract_title1", "company_name"],
          defaultSearchFields :=
            ["id", "record_type", "contract_title1", "company_name",
             "contract_amount", "contract_end_date", "internal_contract_owner",
             "date_signed", "wfstate", "contract_type"],
          requiredFields :=
            ["record_type", "auto_renewal_term_in_months", "confidential",
             "evaluation_frequency"] })
      (by decide) "search" (by decide)
  · exact claim_c3_generate_tools.2.2.2.2.2
      ⟨"agiloft_search_contracts", "contract", "search"⟩ (by decide)

/-! ## Entity tool handlers and dispatch (src/tool_handlers.py)

Handlers are modelled as functions of the entity config, the arguments
dict, and a *client oracle* abstracting the outcome of every
`AgiloftClient` method call (and of `base64.b64decode`).  A handler
returns `Except String Envelope`: `.ok env` is the uniform JSON envelope,
`.error msg` is a Python exception escaping the handler (only possible
from code running before the `try:` block, as in the source). -/

/-- The arguments dict of a tool call. -/
def Args : Type := List (String × PyVal)

/-- The uniform response envelope of `_format_response` / `_format_error`
(src/tool_handlers.py lines 54-89): optional keys are `Option`s. -/
structure Envelope where
  success : Bool
  operation : String
  entity : String
  record_id : Option PyVal := Option.none
  count : Option Nat := Option.none
  data : Option PyVal := Option.none
  error : Option String := Option.none

/-- `_format_response` (lines 54-71): success envelope; `count` is set
exactly when the data is a list; `record_id` when one was given. -/
def formatResponse (op : String) (e : EntityConfig) (data : PyVal)
    (rid : Option PyVal) : Envelope :=
  { success := true, operation := op, entity := e.key, record_id := rid,
    count := match data with | .list l => some l.length | _ => Option.none,
    data := some data }

/-- `_format_error` (lines 74-89): failure envelope with the error string. -/
def formatError (op : String) (e : EntityConfig) (err : String)
    (rid : Option PyVal) : Envelope :=
  { success := false, operation := op, entity := e.key, record_id := rid,
    error := some err }

/-- The final `try`/`except` of every handler: a client-call outcome is
wrapped into the success or failure envelope. -/
def wrapEnvelope (op : String) (e : EntityConfig) (rid : Option PyVal) :
    Except String PyVal → Envelope
  | .ok d => formatResponse op e d rid
  | .error msg => formatError op e msg rid

/-- Abstraction of the transport layer as seen by the handlers: the
outcome of each `AgiloftClient` method call (by method name and positional
arguments) and of `base64.b64decode`. -/
structure ClientOracle where
  call : String → List PyVal → Except String PyVal
  b64decode : String → Except String PyVal

/-- The methods actually defined on `AgiloftClient`
(src/agiloft_client.py, the `def` list of the class).  Note the absence of
`trigger_action_button` and `evaluate_format`. -/
def agiloftClientMethods : List String :=
  ["ensure_session", "close", "ensure_authenticated", "_authenticate",
   "_get_auth_headers", "_make_request", "_extract_record", "_check_response",
   "search_records", "get_record", "create_record", "update_record",
   "delete_record", "upsert_record", "attach_file", "retrieve_attachment",
   "remove_attachment", "get_attachment_info", "search_contracts",
   "get_contract", "create_contract", "update_contract", "delete_contract",
   "logout"]

/-- Python attribute lookup plus call: `client.m(...)` raises
`AttributeError` if the method does not exist on the class. -/
def callClient (o : ClientOracle) (m : String) (args : List PyVal) :
    Except String PyVal :=
  if m ∈ agiloftClientMethods then o.call m args
  else .error ("AttributeError: AgiloftClient object has no attribute " ++ m)

/-- `arguments.get(k, dflt)`. -/
def argGetD (args : Args) (k : String) (dflt : PyVal) : PyVal :=
  (pyGet k args).getD dflt

/-- `arguments.get(k)` viewed through `is not None`: an absent key and a
stored Python `None` are the same. -/
def argOpt (args : Args) (k : String) : Option PyVal :=
  match pyGet k args with
  | some PyVal.none => Option.none
  | v => v

/-- `_strip_empty_values` (lines 144-146): drops `None` and `""` values;
called on a non-dict it raises `AttributeError` (`.items()`), which in the
create/update/upsert handlers happens *before* the `try:` block. -/
def stripEmptyValues : PyVal → Except String (List (String × PyVal))
  | .dict kvs =>
    .ok (kvs.filter (fun p =>
      match p.2 with
      | PyVal.none => false
      | PyVal.str s => ¬ (s = "")
      | _ => true))
  | other =>
    .error ("AttributeError: " ++ pyTypeName other ++ " object has no attribute items")

/-- `record.get("id")` inside the search merge loop; a non-dict element
raises `AttributeError`. -/
def recId : PyVal → Except String PyVal
  | .dict kvs => .ok ((pyGet "id" kvs).getD PyVal.none)
  | other => .error ("AttributeError: " ++ pyTypeName other ++ " object has no attribute get")

/-- The `for record in field_results` merge of `handle_search`
(lines 116-120): de-duplicate by `id`, first occurrence wins. -/
def dedupRecords : List PyVal → List PyVal → List PyVal →
    Except String (List PyVal × List PyVal)
  | [], seen, acc => .ok (seen, acc)
  | r :: rs, seen, acc =>
    match recId r with
    | .error m => .error m
    | .ok rid =>
      if seen.contains rid then dedupRecords rs seen acc
      else dedupRecords rs (seen ++ [rid]) (acc ++ [r])

/-- The `for text_field in entity.text_search_fields` loop of
`handle_search` (lines 111-120): one fuzzy query per text field, merged. -/
def searchTextLoop (o : ClientOracle) (apiPath : String) (q : String)
    (fieldsV : PyVal) : List String → List PyVal → List PyVal →
    Except String (List PyVal)
  | [], _, acc => .ok acc
  | tf :: tfs, seen, acc =>
    match callClient o "search_records" [.str apiPath, .str (fieldQuery tf q), fieldsV] with
    | .error m => .error m
    | .ok fr =>
      match fr with
      | .list l =>
        match dedupRecords l seen acc with
        | .error m => .error m
        | .ok sa => searchTextLoop o apiPath q fieldsV tfs sa.1 sa.2
      | other => .error ("TypeError: " ++ pyTypeName other ++ " object is not iterable")

/-- Python `results[:limit]` (limit may be negative, Python slice rules). -/
def pySlice (n : Int) (l : List PyVal) : List PyVal :=
  if 0 ≤ n then l.take n.toNat else l.take (l.length - (-n).toNat)

/-- Lines 124-125 of `handle_search`: client-side truncation, applied only
when the results are a list and `len(results) > limit`; a non-int,
non-bool limit makes the comparison raise `TypeError` (inside the `try`). -/
def truncateResults (results : PyVal) (limitV : PyVal) : Except String PyVal :=
  match results with
  | .list l =>
    match limitV with
    | .int n => .ok (if (l.length : Int) > n then .list (pySlice n l) else .list l)
    | .bool b => .ok (if (l.length : Int) > (if b then 1 else 0) then
        .list (pySlice (if b then 1 else 0) l) else .list l)
    | other => .error ("TypeError: not supported between instances of int and "
        ++ pyTypeName other)
  | other => .ok other

/-- The branch selection of `handle_search` (lines 102-122): structured
pass-through, sanitized text-search merge, or raw fallback. -/
def searchStep (e : EntityConfig) (o : ClientOracle) (q : String)
    (fieldsV : PyVal) : Except String PyVal :=
  if isStructuredQuery q then
    callClient o "search_records" [.str e.apiPath, .str q, fieldsV]
  else if e.textSearchFields ≠ [] ∧ q.trim ≠ "" then
    match searchTextLoop o e.apiPath q fieldsV e.textSearchFields [] [] with
    | .ok merged => .ok (.list merged)
    | .error m => .error m
  else
    callClient o "search_records" [.str e.apiPath, .str q, fieldsV]

/-- The `try:` body of `handle_search` (lines 101-125): extract the query
(defaults per lines 97-99), run the selected branch, truncate. -/
def searchBody (e : EntityConfig) (args : Args) (o : ClientOracle) :
    Except String PyVal :=
  match argGetD args "query" (.str "") with
  | .str q =>
    (match searchStep e o q
        (argGetD args "fields" (.list (e.defaultSearchFields.map PyVal.str))) with
     | .ok results => truncateResults results (argGetD args "limit" (.int 50))
     | .error m => .error m)
  | other =>
    .error ("TypeError: expected string or bytes-like object, got " ++ pyTypeName other)

/-- `handle_search` (lines 94-128): nothing before the `try` can raise. -/
def handleSearch (e : EntityConfig) (args : Args) (o : ClientOracle) :
    Except String Envelope :=
  .ok (wrapEnvelope "search" e Option.none (searchBody e args o))

/-- `handle_get` (lines 131-141). -/
def handleGet (e : EntityConfig) (args : Args) (o : ClientOracle) :
    Except String Envelope :=
  let rid := argOpt args "record_id"
  let fieldsO := argOpt args "fields"
  .ok (wrapEnvelope "get" e rid
    (callClient o "get_record" [.str e.apiPath, rid.getD PyVal.none, fieldsO.getD PyVal.none]))

/-- `handle_create` (lines 149-158): the empty-value stripping runs before
the `try:` and may escape as a raised exception. -/
def handleCreate (e : EntityConfig) (args : Args) (o : ClientOracle) :
    Except String Envelope :=
  match stripEmptyValues (argGetD args "data" (.dict [])) with
  | .error m => .error m
  | .ok data =>
    .ok (wrapEnvelope "create" e Option.none
      (callClient o "create_record" [.str e.apiPath, .dict data]))

/-- `handle_update` (lines 161-171): same pre-`try` stripping. -/
def handleUpdate (e : EntityConfig) (args : Args) (o : ClientOracle) :
    Except String Envelope :=
  let rid := argOpt args "record_id"
  match stripEmptyValues (argGetD args "data" (.dict [])) with
  | .error m => .error m
  | .ok data =>
    .ok (wrapEnvelope "update" e rid
      (callClient o "update_record" [.str e.apiPath, rid.getD PyVal.none, .dict data]))

/-- `handle_delete` (lines 174-184). -/
def handleDelete (e : EntityConfig) (args : Args) (o : ClientOracle) :
    Except String Envelope :=
  let rid := argOpt args "record_id"
  let rule := argGetD args "delete_rule" (.str "UNLINK_WHERE_POSSIBLE_OTHERWISE_DELETE")
  .ok (wrapEnvelope "delete" e rid
    (callClient o "delete_record" [.str e.apiPath, rid.getD PyVal.none, rule]))

/-- `handle_upsert` (lines 187-197): pre-`try` stripping. -/
def handleUpsert (e : EntityConfig) (args : Args) (o : ClientOracle) :
    Except String Envelope :=
  let q := argGetD args "query" (.str "")
  match stripEmptyValues (argGetD args "data" (.dict [])) with
  | .error m => .error m
  | .ok data =>
    .ok (wrapEnvelope "upsert" e Option.none
      (callClient o "upsert_record" [.str e.apiPath, q, .dict data]))

/-- `handle_attach_file` (lines 200-219): base64 decoding in its own
`try`, producing the `Invalid base64 content` envelope on failure. -/
def handleAttachFile (e : EntityConfig) (args : Args) (o : ClientOracle) :
    Except String Envelope :=
  match argGetD args "file_content_base64" (.str "") with
  | .str s =>
    (match o.b64decode s with
     | .error msg =>
       .ok (formatError "attach_file" e ("Invalid base64 content: " ++ msg)
         (argOpt args "record_id"))
     | .ok fileData =>
       .ok (wrapEnvelope "attach_file" e (argOpt args "record_id")
         (callClient o "attach_file" [.str e.apiPath,
           (argOpt args "record_id").getD PyVal.none,
           (argOpt args "field").getD PyVal.none,
           (argOpt args "file_name").getD PyVal.none, fileData])))
  | other =>
    .ok (formatError "attach_file" e ("Invalid base64 content: " ++
      ("TypeError: argument should be a bytes-like object or ASCII string, not "
        ++ pyTypeName other))
      (argOpt args "record_id"))

/-- `handle_retrieve_attachment` (lines 222-235). -/
def handleRetrieveAttachment (e : EntityConfig) (args : Args) (o : ClientOracle) :
    Except String Envelope :=
  let rid := argOpt args "record_id"
  let fieldV := argOpt args "field"
  let posV := argGetD args "file_position" (.int 0)
  .ok (wrapEnvelope "retrieve_attachment" e rid
    (callClient o "retrieve_attachment" [.str e.apiPath, rid.getD PyVal.none,
      fieldV.getD PyVal.none, posV]))

/-- `handle_remove_attachment` (lines 238-251). -/
def handleRemoveAttachment (e : EntityConfig) (args : Args) (o : ClientOracle) :
    Except String Envelope :=
  let rid := argOpt args "record_id"
  let fieldV := argOpt args "field"
  let posV := argGetD args "file_position" (.int 0)
  .ok (wrapEnvelope "remove_attachment" e rid
    (callClient o "remove_attachment" [.str e.apiPath, rid.getD PyVal.none,
      fieldV.getD PyVal.none, posV]))

/-- `handle_attachment_info` (lines 254-266). -/
def handleAttachmentInfo (e : EntityConfig) (args : Args) (o : ClientOracle) :
    Except String Envelope :=
  let rid := argOpt args "record_id"
  let fieldV := argOpt args "field"
  .ok (wrapEnvelope "get_attachment_info" e rid
    (callClient o "get_attachment_info" [.str e.apiPath, rid.getD PyVal.none,
      fieldV.getD PyVal.none]))

/-- `handle_action_button` (lines 269-279): calls
`client.trigger_action_button`, a method `AgiloftClient` does not define. -/
def handleActionButton (e : EntityConfig) (args : Args) (o : ClientOracle) :
    Except String Envelope :=
  let rid := argOpt args "record_id"
  let buttonV := argOpt args "button_name"
  .ok (wrapEnvelope "action_button" e rid
    (callClient o "trigger_action_button" [.str e.apiPath, rid.getD PyVal.none,
      buttonV.getD PyVal.none]))

/-- `handle_evaluate_format` (lines 282-292): calls
`client.evaluate_format`, a method `AgiloftClient` does not define. -/
def handleEvaluateFormat (e : EntityConfig) (args : Args) (o : ClientOracle) :
    Except String Envelope :=
  let rid := argOpt args "record_id"
  let formulaV := argOpt args "formula"
  .ok (wrapEnvelope "evaluate_format" e rid
    (callClient o "evaluate_format" [.str e.apiPath, rid.getD PyVal.none,
      formulaV.getD PyVal.none]))

/-- The type of a modelled handler. -/
def Handler : Type :=
  EntityConfig → Args → ClientOracle → Except String Envelope

/-- `HANDLER_DISPATCH` (lines 297-310). -/
def HANDLER_DISPATCH : List (String × Handler) :=
  [("search", handleSearch), ("get", handleGet), ("create", handleCreate),
   ("update", handleUpdate), ("delete", handleDelete), ("upsert", handleUpsert),
   ("attach_file", handleAttachFile),
   ("retrieve_attachment", handleRetrieveAttachment),
   ("remove_attachment", handleRemoveAttachment),
   ("get_attachment_info", handleAttachmentInfo),
   ("action_button", handleActionButton),
   ("evaluate_format", handleEvaluateFormat)]

/-- `dispatch_tool_call` (lines 313-334): unknown tool, unknown entity or
unknown action raise `ValueError`; otherwise the resolved handler runs. -/
def dispatchToolCall (name : String) (args : Args) (o : ClientOracle) :
    Except String Envelope :=
  match pyGet name generateTools.2 with
  | Option.none => .error ("ValueError: Unknown tool: " ++ name)
  | some p =>
    match getEntity p.1 with
    | Option.none => .error ("ValueError: Unknown entity: " ++ p.1)
    | some e =>
      match pyGet p.2 HANDLER_DISPATCH with
      | Option.none => .error ("ValueError: Unknown action: " ++ p.2)
      | some h => h e args o

/-- A transport whose every call (and base64 decode) raises with `msg`. -/
def failOracle (msg : String) : ClientOracle :=
  ⟨fun _ _ => .error msg, fun _ => .error msg⟩

/-- A transport whose every call succeeds returning `None`. -/
def nullOracle : ClientOracle :=
  ⟨fun _ _ => .ok PyVal.none, fun _ => .ok PyVal.none⟩

theorem pyGet_mem {α : Type} (k : String) (v : α) :
    ∀ d : List (String × α), pyGet k d = some v → (k, v) ∈ d := by
  intro d
  induction d with
  | nil => intro h; cases h
  | cons p t ih =>
    obtain ⟨k2, v2⟩ := p
    intro h
    by_cases hk : k2 = k
    · subst hk
      simp only [pyGet, if_pos rfl] at h
      injection h with h2
      subst h2
      exact List.mem_cons_self _ _
    · simp only [pyGet, if_neg hk] at h
      exact List.mem_cons_of_mem _ (ih h)

theorem wrapEnvelope_operation (op : String) (e : EntityConfig)
    (rid : Option PyVal) (b : Except String PyVal) :
    (wrapEnvelope op e rid b).operation = op := by
  cases b <;> rfl

theorem wrapEnvelope_entity (op : String) (e : EntityConfig)
    (rid : Option PyVal) (b : Except String PyVal) :
    (wrapEnvelope op e rid b).entity = e.key := by
  cases b <;> rfl

/-- The `data` argument, when present, is a dict (otherwise the
pre-`try` stripping in create/update/upsert raises). -/
def dataArgOk (args : Args) : Prop :=
  pyGet "data" args = Option.none ∨ ∃ kvs, pyGet "data" args = some (.dict kvs)

theorem stripOk (args : Args) (h : dataArgOk args) :
    ∃ kvs, stripEmptyValues (argGetD args "data" (.dict [])) = .ok kvs := by
  rcases h with h | ⟨kvs, h⟩
  · refine ⟨[], ?_⟩
    unfold argGetD
    rw [h]
    rfl
  · unfold argGetD
    rw [h]
    exact ⟨_, rfl⟩

theorem searchTextLoop_fail (msg : String) (p q : String) (f : PyVal)
    (tf : String) (tfs : List String) (seen acc : List PyVal) :
    searchTextLoop (failOracle msg) p q f (tf :: tfs) seen acc = .error msg := rfl

theorem searchStep_fail (e : EntityConfig) (q : String) (fieldsV : PyVal)
    (msg : String) : ∃ m, searchStep e (failOracle msg) q fieldsV = .error m := by
  unfold searchStep
  by_cases h1 : isStructuredQuery q = true
  · rw [if_pos h1]
    exact ⟨msg, rfl⟩
  · rw [if_neg h1]
    by_cases h2 : e.textSearchFields ≠ [] ∧ q.trim ≠ ""
    · rw [if_pos h2]
      cases htf : e.textSearchFields with
      | nil => exact absurd htf h2.1
      | cons tf tfs =>
        rw [searchTextLoop_fail]
        exact ⟨msg, rfl⟩
    · rw [if_neg h2]
      exact ⟨msg, rfl⟩

theorem searchBody_fail (e : EntityConfig) (args : Args) (msg : String) :
    ∃ m, searchBody e args (failOracle msg) = .error m := by
  unfold searchBody
  cases hq : argGetD args "query" (.str "") with
  | str q =>
    obtain ⟨m, hm⟩ := searchStep_fail e q
      (argGetD args "fields" (.list (e.defaultSearchFields.map PyVal.str))) msg
    refine ⟨m, ?_⟩
    show (match searchStep e (failOracle msg) q
        (argGetD args "fields" (.list (e.defaultSearchFields.map PyVal.str))) with
      | .ok results => truncateResults results (argGetD args "limit" (.int 50))
      | .error m2 => Except.error m2) = Except.error m
    rw [hm]
  | int v => exact ⟨_, rfl⟩
  | bool v => exact ⟨_, rfl⟩
  | none => exact ⟨_, rfl⟩
  | list v => exact ⟨_, rfl⟩
  | dict v => exact ⟨_, rfl⟩

/-! Per-handler envelope lemmas: with a name in the dispatch table, each
handler (given a dict-shaped `data` argument where that matters) returns a
uniform envelope carrying the operation and entity, and a transport
failure becomes a `success := false` envelope with the error string. -/

theorem envelope_search (e : EntityConfig) (args : Args) (o : ClientOracle) :
    ∃ env, handleSearch e args o = .ok env ∧
      env.operation = "search" ∧ env.entity = e.key :=
  ⟨_, rfl, wrapEnvelope_operation _ _ _ _, wrapEnvelope_entity _ _ _ _⟩

theorem envelope_search_fail (e : EntityConfig) (args : Args) (msg : String) :
    ∃ env, handleSearch e args (failOracle msg) = .ok env ∧
      env.success = false ∧ env.error.isSome = true := by
  obtain ⟨m, hm⟩ := searchBody_fail e args msg
  refine ⟨formatError "search" e m Option.none, ?_, rfl, rfl⟩
  unfold handleSearch
  rw [hm]
  rfl

theorem envelope_get (e : EntityConfig) (args : Args) (o : ClientOracle) :
    ∃ env, handleGet e args o = .ok env ∧
      env.operation = "get" ∧ env.entity = e.key :=
  ⟨_, rfl, wrapEnvelope_operation _ _ _ _, wrapEnvelope_entity _ _ _ _⟩

theorem envelope_get_fail (e : EntityConfig) (args : Args) (msg : String) :
    ∃ env, handleGet e args (failOracle msg) = .ok env ∧
      env.success = false ∧ env.error.isSome = true :=
  ⟨_, rfl, rfl, rfl⟩

theorem envelope_create (e : EntityConfig) (args : Args) (o : ClientOracle)
    (h : dataArgOk args) :
    ∃ env, handleCreate e args o = .ok env ∧
      env.operation = "create" ∧ env.entity = e.key := by
  obtain ⟨kvs, hstrip⟩ := stripOk args h
  have hc : handleCreate e args o = .ok (wrapEnvelope "create" e Option.none
      (callClient o "create_record" [.str e.apiPath, .dict kvs])) := by
    unfold handleCreate
    rw [hstrip]
  exact ⟨_, hc, wrapEnvelope_operation _ _ _ _, wrapEnvelope_entity _ _ _ _⟩

theorem envelope_create_fail (e : EntityConfig) (args : Args) (msg : String)
    (h : dataArgOk args) :
    ∃ env, handleCreate e args (failOracle msg) = .ok env ∧
      env.success = false ∧ env.error.isSome = true := by
  obtain ⟨kvs, hstrip⟩ := stripOk args h
  refine ⟨formatError "create" e msg Option.none, ?_, rfl, rfl⟩
  unfold handleCreate
  rw [hstrip]
  rfl

theorem envelope_update (e : EntityConfig) (args : Args) (o : ClientOracle)
    (h : dataArgOk args) :
    ∃ env, handleUpdate e args o = .ok env ∧
      env.operation = "update" ∧ env.entity = e.key := by
  obtain ⟨kvs, hstrip⟩ := stripOk args h
  have hc : handleUpdate e args o = .ok (wrapEnvelope "update" e (argOpt args "record_id")
      (callClient o "update_record" [.str e.apiPath,
        (argOpt args "record_id").getD PyVal.none, .dict kvs])) := by
    unfold handleUpdate
    rw [hstrip]
  exact ⟨_, hc, wrapEnvelope_operation _ _ _ _, wrapEnvelope_entity _ _ _ _⟩

theorem envelope_update_fail (e : EntityConfig) (args : Args) (msg : String)
    (h : dataArgOk args) :
    ∃ env, handleUpdate e args (failOracle msg) = .ok env ∧
      env.success = false ∧ env.error.isSome = true := by
  obtain ⟨kvs, hstrip⟩ := stripOk args h
  refine ⟨formatError "update" e msg (argOpt args "record_id"), ?_, rfl, rfl⟩
  unfold handleUpdate
  rw [hstrip]
  rfl

theorem envelope_delete (e : EntityConfig) (args : Args) (o : ClientOracle) :
    ∃ env, handleDelete e args o = .ok env ∧
      env.operation = "delete" ∧ env.entity = e.key :=
  ⟨_, rfl, wrapEnvelope_operation _ _ _ _, wrapEnvelope_entity _ _ _ _⟩

theorem envelope_delete_fail (e : EntityConfig) (args : Args) (msg : String) :
    ∃ env, handleDelete e args (failOracle msg) = .ok env ∧
      env.success = false ∧ env.error.isSome = true :=
  ⟨_, rfl, rfl, rfl⟩

theorem envelope_upsert (e : EntityConfig) (args : Args) (o : ClientOracle)
    (h : dataArgOk args) :
    ∃ env, handleUpsert e args o = .ok env ∧
      env.operation = "upsert" ∧ env.entity = e.key := by
  obtain ⟨kvs, hstrip⟩ := stripOk args h
  have hc : handleUpsert e args o = .ok (wrapEnvelope "upsert" e Option.none
      (callClient o "upsert_record" [.str e.apiPath,
        argGetD args "query" (.str ""), .dict kvs])) := by
    unfold handleUpsert
    rw [hstrip]
  exact ⟨_, hc, wrapEnvelope_operation _ _ _ _, wrapEnvelope_entity _ _ _ _⟩

theorem envelope_upsert_fail (e : EntityConfig) (args : Args) (msg : String)
    (h : dataArgOk args) :
    ∃ env, handleUpsert e args (failOracle msg) = .ok env ∧
      env.success = false ∧ env.error.isSome = true := by
  obtain ⟨kvs, hstrip⟩ := stripOk args h
  refine ⟨formatError "upsert" e msg Option.none, ?_, rfl, rfl⟩
  unfold handleUpsert
  rw [hstrip]
  rfl

theorem envelope_attach (e : EntityConfig) (args : Args) (o : ClientOracle) :
    ∃ env, handleAttachFile e args o = .ok env ∧
      env.operation = "attach_file" ∧ env.entity = e.key := by
  cases hb : argGetD args "file_content_base64" (.str "") with
  | str s =>
    have hred : handleAttachFile e args o =
        (match o.b64decode s with
         | .error m =>
           .ok (formatError "attach_file" e ("Invalid base64 content: " ++ m)
             (argOpt args "record_id"))
         | .ok fd =>
           .ok (wrapEnvelope "attach_file" e (argOpt args "record_id")
             (callClient o "attach_file" [.str e.apiPath,
               (argOpt args "record_id").getD PyVal.none,
               (argOpt args "field").getD PyVal.none,
               (argOpt args "file_name").getD PyVal.none, fd]))) := by
      unfold handleAttachFile
      rw [hb]
    cases hd : o.b64decode s with
    | error m =>
      rw [hred, hd]
      exact ⟨formatError "attach_file" e ("Invalid base64 content: " ++ m)
        (argOpt args "record_id"), rfl, rfl, rfl⟩
    | ok fd =>
      rw [hred, hd]
      exact ⟨wrapEnvelope "attach_file" e (argOpt args "record_id")
        (callClient o "attach_file" [.str e.apiPath,
          (argOpt args "record_id").getD PyVal.none,
          (argOpt args "field").getD PyVal.none,
          (argOpt args "file_name").getD PyVal.none, fd]),
        rfl, wrapEnvelope_operation _ _ _ _, wrapEnvelope_entity _ _ _ _⟩
  | int v =>
    have hred : handleAttachFile e args o = .ok (formatError "attach_file" e
        ("Invalid base64 content: " ++
          ("TypeError: argument should be a bytes-like object or ASCII string, not "
            ++ pyTypeName (.int v))) (argOpt args "record_id")) := by
      unfold handleAttachFile
      rw [hb]
    exact ⟨_, hred, rfl, rfl⟩
  | bool v =>
    have hred : handleAttachFile e args o = .ok (formatError "attach_file" e
        ("Invalid base64 content: " ++
          ("TypeError: argument should be a bytes-like object or ASCII string, not "
            ++ pyTypeName (.bool v))) (argOpt args "record_id")) := by
      unfold handleAttachFile
      rw [hb]
    exact ⟨_, hred, rfl, rfl⟩
  | none =>
    have hred : handleAttachFile e args o = .ok (formatError "attach_file" e
        ("Invalid base64 content: " ++
          ("TypeError: argument should be a bytes-like object or ASCII string, not "
            ++ pyTypeName .none)) (argOpt args "record_id")) := by
      unfold handleAttachFile
      rw [hb]
    exact ⟨_, hred, rfl, rfl⟩
  | list v =>
    have hred : handleAttachFile e args o = .ok (formatError "attach_file" e
        ("Invalid base64 content: " ++
          ("TypeError: argument should be a bytes-like object or ASCII string, not "
            ++ pyTypeName (.list v))) (argOpt args "record_id")) := by
      unfold handleAttachFile
      rw [hb]
    exact ⟨_, hred, rfl, rfl⟩
  | dict v =>
    have hred : handleAttachFile e args o = .ok (formatError "attach_file" e
        ("Invalid base64 content: " ++
          ("TypeError: argument should be a bytes-like object or ASCII string, not "
            ++ pyTypeName (.dict v))) (argOpt args "record_id")) := by
      unfold handleAttachFile
      rw [hb]
    exact ⟨_, hred, rfl, rfl⟩

theorem envelope_attach_fail (e : EntityConfig) (args : Args) (msg : String) :
    ∃ env, handleAttachFile e args (failOracle msg) = .ok env ∧
      env.success = false ∧ env.error.isSome = true := by
  cases hb : argGetD args "file_content_base64" (.str "") with
  | str s =>
    have hred : handleAttachFile e args (failOracle msg) = .ok (formatError
        "attach_file" e ("Invalid base64 content: " ++ msg)
        (argOpt args "record_id")) := by
      unfold handleAttachFile
      rw [hb]
      rfl
    exact ⟨_, hred, rfl, rfl⟩
  | int v =>
    have hred : handleAttachFile e args (failOracle msg) = .ok (formatError
        "attach_file" e ("Invalid base64 content: " ++
          ("TypeError: argument should be a bytes-like object or ASCII string, not "
            ++ pyTypeName (.int v))) (argOpt args "record_id")) := by
      unfold handleAttachFile
      rw [hb]
    exact ⟨_, hred, rfl, rfl⟩
  | bool v =>
    have hred : handleAttachFile e args (failOracle msg) = .ok (formatError
        "attach_file" e ("Invalid base64 content: " ++
          ("TypeError: argument should be a bytes-like object or ASCII string, not "
            ++ pyTypeName (.bool v))) (argOpt args "record_id")) := by
      unfold handleAttachFile
      rw [hb]
    exact ⟨_, hred, rfl, rfl⟩
  | none =>
    have hred : handleAttachFile e args (failOracle msg) = .ok (formatError
        "attach_file" e ("Invalid base64 content: " ++
          ("TypeError: argument should be a bytes-like object or ASCII string, not "
            ++ pyTypeName .none)) (argOpt args "record_id")) := by
      unfold handleAttachFile
      rw [hb]
    exact ⟨_, hred, rfl, rfl⟩
  | list v =>
    have hred : handleAttachFile e args (failOracle msg) = .ok (formatError
        "attach_file" e ("Invalid base64 content: " ++
          ("TypeError: argument should be a bytes-like object or ASCII string, not "
            ++ pyTypeName (.list v))) (argOpt args "record_id")) := by
      unfold handleAttachFile
      rw [hb]
    exact ⟨_, hred, rfl, rfl⟩
  | dict v =>
    have hred : handleAttachFile e args (failOracle msg) = .ok (formatError
        "attach_file" e ("Invalid base64 content: " ++
          ("TypeError: argument should be a bytes-like object or ASCII string, not "
            ++ pyTypeName (.dict v))) (argOpt args "record_id")) := by
      unfold handleAttachFile
      rw [hb]
    exact ⟨_, hred, rfl, rfl⟩

theorem envelope_retrieve (e : EntityConfig) (args : Args) (o : ClientOracle) :
    ∃ env, handleRetrieveAttachment e args o = .ok env ∧
      env.operation = "retrieve_attachment" ∧ env.entity = e.key :=
  ⟨_, rfl, wrapEnvelope_operation _ _ _ _, wrapEnvelope_entity _ _ _ _⟩

theorem envelope_retrieve_fail (e : EntityConfig) (args : Args) (msg : String) :
    ∃ env, handleRetrieveAttachment e args (failOracle msg) = .ok env ∧
      env.success = false ∧ env.error.isSome = true :=
  ⟨_, rfl, rfl, rfl⟩

theorem envelope_remove (e : EntityConfig) (args : Args) (o : ClientOracle) :
    ∃ env, handleRemoveAttachment e args o = .ok env ∧
      env.operation = "remove_attachment" ∧ env.entity = e.key :=
  ⟨_, rfl, wrapEnvelope_operation _ _ _ _, wrapEnvelope_entity _ _ _ _⟩

theorem envelope_remove_fail (e : EntityConfig) (args : Args) (msg : String) :
    ∃ env, handleRemoveAttachment e args (failOracle msg) = .ok env ∧
      env.success = false ∧ env.error.isSome = true :=
  ⟨_, rfl, rfl, rfl⟩

theorem envelope_info (e : EntityConfig) (args : Args) (o : ClientOracle) :
    ∃ env, handleAttachmentInfo e args o = .ok env ∧
      env.operation = "get_attachment_info" ∧ env.entity = e.key :=
  ⟨_, rfl, wrapEnvelope_operation _ _ _ _, wrapEnvelope_entity _ _ _ _⟩

theorem envelope_info_fail (e : EntityConfig) (args : Args) (msg : String) :
    ∃ env, handleAttachmentInfo e args (failOracle msg) = .ok env ∧
      env.success = false ∧ env.error.isSome = true :=
  ⟨_, rfl, rfl, rfl⟩

theorem envelope_action (e : EntityConfig) (args : Args) (o : ClientOracle) :
    ∃ env, handleActionButton e args o = .ok env ∧
      env.operation = "action_button" ∧ env.entity = e.key :=
  ⟨_, rfl, wrapEnvelope_operation _ _ _ _, wrapEnvelope_entity _ _ _ _⟩

theorem envelope_action_fail (e : EntityConfig) (args : Args) (msg : String) :
    ∃ env, handleActionButton e args (failOracle msg) = .ok env ∧
      env.success = false ∧ env.error.isSome = true :=
  ⟨_, rfl, rfl, rfl⟩

theorem envelope_evaluate (e : EntityConfig) (args : Args) (o : ClientOracle) :
    ∃ env, handleEvaluateFormat e args o = .ok env ∧
      env.operation = "evaluate_format" ∧ env.entity = e.key :=
  ⟨_, rfl, wrapEnvelope_operation _ _ _ _, wrapEnvelope_entity _ _ _ _⟩

theorem envelope_evaluate_fail (e : EntityConfig) (args : Args) (msg : String) :
    ∃ env, handleEvaluateFormat e args (failOracle msg) = .ok env ∧
      env.success = false ∧ env.error.isSome = true :=
  ⟨_, rfl, rfl, rfl⟩

theorem dispatchToolCall_eq (name : String) (p : String × String)
    (e : EntityConfig) (hnd : Handler) (args : Args) (o : ClientOracle)
    (h1 : pyGet name generateTools.2 = some p)
    (h2 : getEntity p.1 = some e)
    (h3 : pyGet p.2 HANDLER_DISPATCH = some hnd) :
    dispatchToolCall name args o = hnd e args o := by
  unfold dispatchToolCall
  rw [h1]
  show (match getEntity p.1 with
    | Option.none => Except.error ("ValueError: Unknown entity: " ++ p.1)
    | some e2 =>
      match pyGet p.2 HANDLER_DISPATCH with
      | Option.none => Except.error ("ValueError: Unknown action: " ++ p.2)
      | some h => h e2 args o) = hnd e args o
  rw [h2]
  show (match pyGet p.2 HANDLER_DISPATCH with
    | Option.none => Except.error ("ValueError: Unknown action: " ++ p.2)
    | some h => h e args o) = hnd e args o
  rw [h3]

set_option maxRecDepth 10000 in
theorem dispatch_pairs_ok : ∀ q ∈ generateTools.2,
    ((match getEntity q.2.1 with
      | some e => e.key == q.2.1
      | Option.none => false) = true) ∧ q.2.2 ∈ GENERATOR_OPS := by
  decide

/-- C5 counterexample: a dispatched `create` call whose `data` argument is
not a dict raises `AttributeError` in `_strip_empty_values` *before* the
handler's `try:` block, so the exception escapes `dispatch_tool_call`
instead of becoming an error envelope. -/
theorem claim_c5_counterexample :
    dispatchToolCall "agiloft_create_contract" [("data", PyVal.int 42)] nullOracle
      = .error "AttributeError: int object has no attribute items" := rfl

set_option maxRecDepth 10000 in
/-- C5 amended: for every tool name in the dispatch table and every
arguments dict whose `data` value — relevant only to create/update/upsert —
is absent or a dict, dispatch returns a uniform envelope carrying the
operation and entity for any transport, and when every underlying client
call raises, the envelope has `success := false` and an error string; no
exception escapes.  (For a non-dict `data` on create/update/upsert the
pre-`try` stripping raises and the exception escapes, see
`claim_c5_counterexample`.) -/
theorem claim_c5_dispatch_uniform_envelope :
    ∀ (name : String) (p : String × String) (args : Args) (msg : String),
    pyGet name generateTools.2 = some p →
    ((p.2 = "create" ∨ p.2 = "update" ∨ p.2 = "upsert") → dataArgOk args) →
    (∀ o : ClientOracle, ∃ env : Envelope,
        dispatchToolCall name args o = .ok env ∧
        env.operation = p.2 ∧ env.entity = p.1) ∧
    (∃ env : Envelope,
        dispatchToolCall name args (failOracle msg) = .ok env ∧
        env.success = false ∧ env.error.isSome = true) := by
  intro name p args msg hname hdata
  have hmem : (name, p) ∈ generateTools.2 := pyGet_mem _ _ _ hname
  have hprops := dispatch_pairs_ok (name, p) hmem
  obtain ⟨hent, hop⟩ := hprops
  cases hge : getEntity p.1 with
  | none =>
    rw [hge] at hent
    cases hent
  | some e =>
    rw [hge] at hent
    have hkey : e.key = p.1 := by
      simpa using hent
    simp only [GENERATOR_OPS, List.mem_cons, List.mem_singleton,
      List.not_mem_nil, or_false] at hop
    rcases hop with h | h | h | h | h | h | h | h | h | h | h | h
    · have h3 : pyGet p.2 HANDLER_DISPATCH = some handleSearch := by rw [h]; rfl
      constructor
      · intro o
        obtain ⟨env, henv, ho2, he2⟩ := envelope_search e args o
        exact ⟨env, by rw [dispatchToolCall_eq name p e _ args o hname hge h3]; exact henv,
          by rw [h]; exact ho2, by rw [← hkey]; exact he2⟩
      · obtain ⟨env, henv, hs, he2⟩ := envelope_search_fail e args msg
        exact ⟨env, by rw [dispatchToolCall_eq name p e _ args _ hname hge h3]; exact henv,
          hs, he2⟩
    · have h3 : pyGet p.2 HANDLER_DISPATCH = some handleGet := by rw [h]; rfl
      constructor
      · intro o
        obtain ⟨env, henv, ho2, he2⟩ := envelope_get e args o
        exact ⟨env, by rw [dispatchToolCall_eq name p e _ args o hname hge h3]; exact henv,
          by rw [h]; exact ho2, by rw [← hkey]; exact he2⟩
      · obtain ⟨env, henv, hs, he2⟩ := envelope_get_fail e args msg
        exact ⟨env, by rw [dispatchToolCall_eq name p e _ args _ hname hge h3]; exact henv,
          hs, he2⟩
    · have hda : dataArgOk args := hdata (Or.inl h)
      have h3 : pyGet p.2 HANDLER_DISPATCH = some handleCreate := by rw [h]; rfl
      constructor
      · intro o
        obtain ⟨env, henv, ho2, he2⟩ := envelope_create e args o hda
        exact ⟨env, by rw [dispatchToolCall_eq name p e _ args o hname hge h3]; exact henv,
          by rw [h]; exact ho2, by rw [← hkey]; exact he2⟩
      · obtain ⟨env, henv, hs, he2⟩ := envelope_create_fail e args msg hda
        exact ⟨env, by rw [dispatchToolCall_eq name p e _ args _ hname hge h3]; exact henv,
          hs, he2⟩
    · have hda : dataArgOk args := hdata (Or.inr (Or.inl h))
      have h3 : pyGet p.2 HANDLER_DISPATCH = some handleUpdate := by rw [h]; rfl
      constructor
      · intro o
        obtain ⟨env, henv, ho2, he2⟩ := envelope_update e args o hda
        exact ⟨env, by rw [dispatchToolCall_eq name p e _ args o hname hge h3]; exact henv,
          by rw [h]; exact ho2, by rw [← hkey]; exact he2⟩
      · obtain ⟨env, henv, hs, he2⟩ := envelope_update_fail e args msg hda
        exact ⟨env, by rw [dispatchToolCall_eq name p e _ args _ hname hge h3]; exact henv,
          hs, he2⟩
    · have h3 : pyGet p.2 HANDLER_DISPATCH = some handleDelete := by rw [h]; rfl
      constructor
      · intro o
        obtain ⟨env, henv, ho2, he2⟩ := envelope_delete e args o
        exact ⟨env, by rw [dispatchToolCall_eq name p e _ args o hname hge h3]; exact henv,
          by rw [h]; exact ho2, by rw [← hkey]; exact he2⟩
      · obtain ⟨env, henv, hs, he2⟩ := envelope_delete_fail e args msg
        exact ⟨env, by rw [dispatchToolCall_eq name p e _ args _ hname hge h3]; exact henv,
          hs, he2⟩
    · have hda : dataArgOk args := hdata (Or.inr (Or.inr h))
      have h3 : pyGet p.2 HANDLER_DISPATCH = some handleUpsert := by rw [h]; rfl
      constructor
      · intro o
        obtain ⟨env, henv, ho2, he2⟩ := envelope_upsert e args o hda
        exact ⟨env, by rw [dispatchToolCall_eq name p e _ args o hname hge h3]; exact henv,
          by rw [h]; exact ho2, by rw [← hkey]; exact he2⟩
      · obtain ⟨env, henv, hs, he2⟩ := envelope_upsert_fail e args msg hda
        exact ⟨env, by rw [dispatchToolCall_eq name p e _ args _ hname hge h3]; exact henv,
          hs, he2⟩
    · have h3 : pyGet p.2 HANDLER_DISPATCH = some handleAttachFile := by rw [h]; rfl
      constructor
      · intro o
        obtain ⟨env, henv, ho2, he2⟩ := envelope_attach e args o
        exact ⟨env, by rw [dispatchToolCall_eq name p e _ args o hname hge h3]; exact henv,
          by rw [h]; exact ho2, by rw [← hkey]; exact he2⟩
      · obtain ⟨env, henv, hs, he2⟩ := envelope_attach_fail e args msg
        exact ⟨env, by rw [dispatchToolCall_eq name p e _ args _ hname hge h3]; exact henv,
          hs, he2⟩
    · have h3 : pyGet p.2 HANDLER_DISPATCH = some handleRetrieveAttachment := by
        rw [h]; rfl
      constructor
      · intro o
        obtain ⟨env, henv, ho2, he2⟩ := envelope_retrieve e args o
        exact ⟨env, by rw [dispatchToolCall_eq name p e _ args o hname hge h3]; exact henv,
          by rw [h]; exact ho2, by rw [← hkey]; exact he2⟩
      · obtain ⟨env, henv, hs, he2⟩ := envelope_retrieve_fail e args msg
        exact ⟨env, by rw [dispatchToolCall_eq name p e _ args _ hname hge h3]; exact henv,
          hs, he2⟩
    · have h3 : pyGet p.2 HANDLER_DISPATCH = some handleRemoveAttachment := by
        rw [h]; rfl
      constructor
      · intro o
        obtain ⟨env, henv, ho2, he2⟩ := envelope_remove e args o
        exact ⟨env, by rw [dispatchToolCall_eq name p e _ args o hname hge h3]; exact henv,
          by rw [h]; exact ho2, by rw [← hkey]; exact he2⟩
      · obtain ⟨env, henv, hs, he2⟩ := envelope_remove_fail e args msg
        exact ⟨env, by rw [dispatchToolCall_eq name p e _ args _ hname hge h3]; exact henv,
          hs, he2⟩
    · have h3 : pyGet p.2 HANDLER_DISPATCH = some handleAttachmentInfo := by
        rw [h]; rfl
      constructor
      · intro o
        obtain ⟨env, henv, ho2, he2⟩ := envelope_info e args o
        exact ⟨env, by rw [dispatchToolCall_eq name p e _ args o hname hge h3]; exact henv,
          by rw [h]; exact ho2, by rw [← hkey]; exact he2⟩
      · obtain ⟨env, henv, hs, he2⟩ := envelope_info_fail e args msg
        exact ⟨env, by rw [dispatchToolCall_eq name p e _ args _ hname hge h3]; exact henv,
          hs, he2⟩
    · have h3 : pyGet p.2 HANDLER_DISPATCH = some handleActionButton := by
        rw [h]; rfl
      constructor
      · intro o
        obtain ⟨env, henv, ho2, he2⟩ := envelope_action e args o
        exact ⟨env, by rw [dispatchToolCall_eq name p e _ args o hname hge h3]; exact henv,
          by rw [h]; exact ho2, by rw [← hkey]; exact he2⟩
      · obtain ⟨env, henv, hs, he2⟩ := envelope_action_fail e args msg
        exact ⟨env, by rw [dispatchToolCall_eq name p e _ args _ hname hge h3]; exact henv,
          hs, he2⟩
    · have h3 : pyGet p.2 HANDLER_DISPATCH = some handleEvaluateFormat := by
        rw [h]; rfl
      constructor
      · intro o
        obtain ⟨env, henv, ho2, he2⟩ := envelope_evaluate e args o
        exact ⟨env, by rw [dispatchToolCall_eq name p e _ args o hname hge h3]; exact henv,
          by rw [h]; exact ho2, by rw [← hkey]; exact he2⟩
      · obtain ⟨env, henv, hs, he2⟩ := envelope_evaluate_fail e args msg
        exact ⟨env, by rw [dispatchToolCall_eq name p e _ args _ hname hge h3]; exact henv,
          hs, he2⟩

/-- Witness for `claim_c5_dispatch_uniform_envelope` at the concrete tool
`agiloft_get_contract` with an empty arguments dict and a failing
transport. -/
theorem claim_c5_dispatch_uniform_envelope_witness :
    ∃ env : Envelope,
      dispatchToolCall "agiloft_get_contract" [] (failOracle "boom") = .ok env ∧
      env.success = false ∧ env.error.isSome = true :=
  (claim_c5_dispatch_uniform_envelope "agiloft_get_contract" ("contract", "get")
    [] "boom" rfl (fun _ => Or.inl rfl)).2

/-- C6: `AgiloftClient` defines no `trigger_action_button` or
`evaluate_format` method, while `handle_action_button` and
`handle_evaluate_format` (and the repository's own tests,
tests/test_agiloft_client.py) call them; every invocation of these
handlers therefore returns an `AttributeError` failure envelope, never the
claimed pass-through success envelope, regardless of arguments or
transport behaviour. -/
theorem claim_c6_action_button_missing :
    ∀ (e : EntityConfig) (args : Args) (o : ClientOracle),
    handleActionButton e args o = .ok (formatError "action_button" e
      "AttributeError: AgiloftClient object has no attribute trigger_action_button"
      (argOpt args "record_id")) ∧
    handleEvaluateFormat e args o = .ok (formatError "evaluate_format" e
      "AttributeError: AgiloftClient object has no attribute evaluate_format"
      (argOpt args "record_id")) :=
  fun _ _ _ => ⟨rfl, rfl⟩

/-! ## Composite workflows (src/workflow_handlers.py)

Workflow handlers use the enriched envelope of `_workflow_response` /
`_workflow_error` (lines 52-92).  External stdlib behaviour is abstracted:
`dateFmt` stands for `strftime("%Y-%m-%d")` on a day number, `parseDate`
for `strptime(str(x)[:10], "%Y-%m-%d")` (returning the parsed day number,
`none` on `ValueError`); dates are modelled as integer day numbers, so
`(end_date - now).days` is integer subtraction. -/

/-- Python truthiness on the modelled values. -/
def pyFalsy : PyVal → Bool
  | .none => true
  | .str s => s = ""
  | .int n => n = 0
  | .bool b => !b
  | .list l => l.isEmpty
  | .dict d => d.isEmpty

/-- Python `bool(v)`. -/
def pyTruthy (v : PyVal) : Bool := !(pyFalsy v)

/-- Python `str(v)` for the values reaching f-strings here (the container
renderings are abbreviated; no claim depends on them). -/
def pyStrOf : PyVal → String
  | .str s => s
  | .int n => toString n
  | .bool b => if b then "True" else "False"
  | .none => "None"
  | .list _ => "list"
  | .dict _ => "dict"

/-- The `_workflow_response` / `_workflow_error` envelope
(src/workflow_handlers.py lines 52-92). -/
structure WorkflowEnvelope where
  success : Bool
  operation : String
  data : Option PyVal := Option.none
  next_steps : Option (List String) := Option.none
  warnings : Option (List String) := Option.none
  error : Option String := Option.none
  partial_data : Option PyVal := Option.none

/-- `_workflow_response` (lines 52-72): `next_steps` / `warnings` included
only when non-empty. -/
def workflowResponse (op : String) (data : PyVal)
    (nextSteps warnings : List String) : WorkflowEnvelope :=
  { success := true, operation := op, data := some data,
    next_steps := if nextSteps ≠ [] then some nextSteps else Option.none,
    warnings := if warnings ≠ [] then some warnings else Option.none }

/-- `_workflow_error` (lines 75-92). -/
def workflowError (op : String) (err : String) (partialData : Option PyVal) :
    WorkflowEnvelope :=
  { success := false, operation := op, error := some err,
    partial_data := partialData }

/-- Positional-parameter names of the `AgiloftClient` methods called with
keyword arguments by the workflow layer (from the `def` signatures in
src/agiloft_client.py; `self` excluded). -/
def methodParams : String → List String
  | "search_records" => ["entity_path", "query", "fields"]
  | "get_record" => ["entity_path", "record_id", "fields"]
  | "create_record" => ["entity_path", "data"]
  | "update_record" => ["entity_path", "record_id", "data"]
  | "delete_record" => ["entity_path", "record_id", "delete_rule"]
  | "upsert_record" => ["entity_path", "query", "data"]
  | "attach_file" => ["entity_path", "record_id", "field", "file_name", "file_data"]
  | "retrieve_attachment" => ["entity_path", "record_id", "field", "file_position"]
  | "remove_attachment" => ["entity_path", "record_id", "field", "file_position"]
  | "get_attachment_info" => ["entity_path", "record_id", "field"]
  | _ => []

/-- Python call semantics with keyword arguments: attribute lookup, then a
`TypeError` if a keyword is not among the method's parameters, then the
oracle outcome. -/
def callClientKw (o : ClientOracle) (m : String) (args : List PyVal)
    (kwargs : List String) : Except String PyVal :=
  if m ∈ agiloftClientMethods then
    match kwargs.filter (fun k => ¬ k ∈ methodParams m) with
    | [] => o.call m args
    | k :: _ =>
      .error ("TypeError: " ++ m ++ "() got an unexpected keyword argument " ++ k)
  else .error ("AttributeError: AgiloftClient object has no attribute " ++ m)

/-- The urgency buckets and warnings accumulated by
`handle_find_expiring_contracts` (lines 473-503). -/
structure ExpiringBuckets where
  urgent : List PyVal
  upcoming : List PyVal
  planning : List PyVal
  expired : List PyVal
  warnings : List String

/-- The `for contract in results` loop of `handle_find_expiring_contracts`
(lines 479-503): skip falsy end dates, warn on unparsable ones, otherwise
tag `days_remaining` / `urgency` and bucket by days remaining. -/
def categorizeContracts (parseDate : PyVal → Option Int) (now : Int) :
    List PyVal → ExpiringBuckets → Except String ExpiringBuckets
  | [], b => .ok b
  | c :: cs, b =>
    match c with
    | .dict kvs =>
      if pyFalsy ((pyGet "contract_end_date" kvs).getD (.str "")) then
        categorizeContracts parseDate now cs b
      else
        match parseDate ((pyGet "contract_end_date" kvs).getD (.str "")) with
        | Option.none =>
          categorizeContracts parseDate now cs
            { b with warnings := b.warnings ++
                ["Contract " ++ pyStrOf ((pyGet "id" kvs).getD .none)
                  ++ ": could not parse end_date "
                  ++ pyStrOf ((pyGet "contract_end_date" kvs).getD (.str ""))] }
        | some d =>
          let dr := d - now
          let kvs2 := pySet "days_remaining" (.int dr) kvs
          if dr < 0 then
            categorizeContracts parseDate now cs
              { b with expired := b.expired ++ [.dict (pySet "urgency" (.str "EXPIRED") kvs2)] }
          else if dr ≤ 30 then
            categorizeContracts parseDate now cs
              { b with urgent := b.urgent ++ [.dict (pySet "urgency" (.str "URGENT") kvs2)] }
          else if dr ≤ 60 then
            categorizeContracts parseDate now cs
              { b with upcoming := b.upcoming ++ [.dict (pySet "urgency" (.str "UPCOMING") kvs2)] }
          else
            categorizeContracts parseDate now cs
              { b with planning := b.planning ++ [.dict (pySet "urgency" (.str "PLANNING") kvs2)] }
    | other =>
      .error ("AttributeError: " ++ pyTypeName other ++ " object has no attribute get")

/-- A string in the remote query syntax, wrapped in single quotes. -/
def sqQuote (s : String) : String :=
  String.mk [quoteC] ++ s ++ String.mk [quoteC]

/-- The date-range query of `handle_find_expiring_contracts`
(lines 452-461). -/
def expiringQuery (dateFmt : Int → String) (now future : Int)
    (includeExpired : Bool) (statusFilterV : PyVal) : String :=
  (if includeExpired then
    "contract_end_date<=" ++ sqQuote (dateFmt future)
  else
    "contract_end_date>=" ++ sqQuote (dateFmt now)
      ++ " AND contract_end_date<=" ++ sqQuote (dateFmt future)) ++
  (if pyTruthy statusFilterV then
    " AND wfstate=" ++ sqQuote (pyStrOf statusFilterV)
  else "")

/-- The field list of the search call (lines 465-469). -/
def expiringFields : List String :=
  ["id", "contract_title1", "company_name", "contract_type",
   "contract_end_date", "contract_amount", "wfstate",
   "auto_renewal_term_in_months", "internal_contract_owner"]

/-- The `data` dict assembled on lines 505-517. -/
def buildExpiringData (days : Int) (includeExpired : Bool)
    (rl : List PyVal) (b : ExpiringBuckets) : PyVal :=
  .dict ([("summary", .dict
      [("total_found", .int rl.length),
       ("urgent_count", .int b.urgent.length),
       ("upcoming_count", .int b.upcoming.length),
       ("planning_count", .int b.planning.length),
       ("expired_count", .int b.expired.length),
       ("search_range_days", .int days)]),
     ("urgent", .list b.urgent), ("upcoming", .list b.upcoming),
     ("planning", .list b.planning)] ++
    (if includeExpired then [("expired", .list b.expired)] else []))

/-- The `next_steps` assembled on lines 519-533. -/
def expiringNextSteps (days : Int) (rl : List PyVal) (b : ExpiringBuckets) :
    List String :=
  (if b.urgent.isEmpty then []
  else
    [toString b.urgent.length ++
      " URGENT contract(s) expiring within 30 days - review immediately with agiloft_get_contract_summary."]) ++
  (if b.upcoming.isEmpty then []
  else
    [toString b.upcoming.length ++
      " contract(s) expiring in 31-60 days - schedule renewal discussions."]) ++
  (if rl.isEmpty then
    ["No contracts expiring within " ++ toString days ++
      " days. Try increasing the days_from_now value."]
  else [])

/-- The `try:` body of `handle_find_expiring_contracts` (lines 447-538).
The search call passes `limit=200` (line 470), a keyword the
`search_records` signature does not accept. -/
def findExpiringBody (args : Args) (o : ClientOracle) (now : Int)
    (dateFmt : Int → String) (parseDate : PyVal → Option Int) :
    Except String (PyVal × List String × List String) :=
  match argGetD args "days_from_now" (.int 90) with
  | .int days =>
    (match callClientKw o "search_records"
        [.str "/contract",
         .str (expiringQuery dateFmt now (now + days)
           (pyTruthy (argGetD args "include_expired" (.bool false)))
           (argGetD args "status_filter" (.str ""))),
         .list (expiringFields.map .str)] ["limit"] with
     | .error m => .error m
     | .ok results =>
       match results with
       | .list rl =>
         (match categorizeContracts parseDate now rl ⟨[], [], [], [], []⟩ with
          | .error m => .error m
          | .ok b =>
            .ok (buildExpiringData days
                  (pyTruthy (argGetD args "include_expired" (.bool false))) rl b,
                 expiringNextSteps days rl b, b.warnings))
       | other => .error ("TypeError: " ++ pyTypeName other ++ " object is not iterable"))
  | other => .error ("TypeError: unsupported type for timedelta days component: "
      ++ pyTypeName other)

/-- `handle_find_expiring_contracts` (lines 435-541). -/
def handleFindExpiringContracts (args : Args) (o : ClientOracle) (now : Int)
    (dateFmt : Int → String) (parseDate : PyVal → Option Int) :
    WorkflowEnvelope :=
  match findExpiringBody args o now dateFmt parseDate with
  | .ok dw => workflowResponse "find_expiring_contracts" dw.1 dw.2.1 dw.2.2
  | .error m => workflowError "find_expiring_contracts" m Option.none

/-- The scenario date parser: the three end dates of the claim resolve to
day numbers today+10 / today+45 / today+80 (today = 0). -/
def scenarioParseDate : PyVal → Option Int
  | .str s =>
    if s = "d+10" then some 10
    else if s = "d+45" then some 45
    else if s = "d+80" then some 80
    else Option.none
  | _ => Option.none

/-- C2: the workflow as implemented can never produce the claimed buckets:
`handle_find_expiring_contracts` calls `search_records` with `limit=200`,
but the `search_records` signature has no `limit` parameter, so every
invocation — in particular the claimed `days_from_now=90` scenario — raises
`TypeError` and returns a `success := false` error envelope (first
conjunct, for every transport).  The bucketing loop itself (dead code
downstream of that call) does bucket today+10 / today+45 / today+80 as
1 URGENT / 1 UPCOMING / 1 PLANNING and turns an unparsable end date into a
warning instead of a failure (remaining conjuncts), confirming that the
claim describes the intent and the `limit=200` keyword is the slip. -/
theorem claim_c2_find_expiring_limit_bug :
    (∀ (o : ClientOracle) (now : Int) (dateFmt : Int → String)
        (parseDate : PyVal → Option Int),
      handleFindExpiringContracts [("days_from_now", PyVal.int 90)] o now
          dateFmt parseDate =
        workflowError "find_expiring_contracts"
          "TypeError: search_records() got an unexpected keyword argument limit"
          Option.none) ∧
    ((categorizeContracts scenarioParseDate 0
        [.dict [("id", .int 1), ("contract_end_date", .str "d+10")],
         .dict [("id", .int 2), ("contract_end_date", .str "d+45")],
         .dict [("id", .int 3), ("contract_end_date", .str "d+80")]]
        ⟨[], [], [], [], []⟩).map
      (fun b => (b.urgent.length, b.upcoming.length, b.planning.length,
        b.expired.length, b.warnings.length)) = .ok (1, 1, 1, 0, 0)) ∧
    ((categorizeContracts scenarioParseDate 0
        [.dict [("id", .int 1), ("contract_end_date", .str "d+10")],
         .dict [("id", .int 4), ("contract_end_date", .str "not-a-date")]]
        ⟨[], [], [], [], []⟩).map
      (fun b => (b.urgent.length, b.upcoming.length, b.planning.length,
        b.expired.length, b.warnings.length)) = .ok (1, 0, 0, 0, 1)) := by
  refine ⟨fun o now dateFmt parseDate => rfl, rfl, rfl⟩

/-! ## Authenticated transport: response handling of `_make_request`
(src/agiloft_client.py lines 156-186)

The transport is modelled as a stream of scripted HTTP responses consumed
one per attempt, together with an event trace recording each attempt and
each forced re-authentication.  `json.loads` is abstracted as `parse`. -/

structure HttpResp where
  status : Nat
  text : String
deriving DecidableEq, Repr

inductive ReqEv where
  | attempt : Nat → ReqEv
  | reauth : ReqEv
deriving DecidableEq, Repr

/-- `AgiloftAPIError` from src/exceptions.py lines 20-26. -/
structure APIErr where
  message : String
  status_code : Option Nat := Option.none
  response_text : Option String := Option.none
deriving DecidableEq, Repr

/-- The response handling of `_make_request` (lines 156-186): a 401 forces
one `_authenticate()` and one retry; the retry result is only checked
against 200 (no second retry, whatever its status); any other non-200
raises `AgiloftAPIError` with the status code and raw body; otherwise the
body is parsed.  Note line 166: after a retry the raised error's
`response_text` is the retry response's body. -/
def makeRequest (parse : String → PyVal) (responses : List HttpResp) :
    Except APIErr PyVal × List ReqEv :=
  match responses with
  | [] => (.error ⟨"transport: no response", Option.none, Option.none⟩, [])
  | r1 :: rest =>
    if r1.status = 401 then
      match rest with
      | [] => (.error ⟨"transport: no response", Option.none, Option.none⟩,
          [.attempt r1.status, .reauth])
      | r2 :: _ =>
        if r2.status ≠ 200 then
          (.error ⟨"API request failed after re-auth: " ++ toString r2.status,
              some r2.status, some r2.text⟩,
           [.attempt r1.status, .reauth, .attempt r2.status])
        else
          (.ok (parse r2.text), [.attempt r1.status, .reauth, .attempt r2.status])
    else if r1.status ≠ 200 then
      (.error ⟨"API request failed: " ++ toString r1.status ++ " - " ++ r1.text,
          some r1.status, some r1.text⟩,
       [.attempt r1.status])
    else
      (.ok (parse r1.text), [.attempt r1.status])

/-- C7: a 401 first response triggers exactly one forced re-authentication
and exactly one retry (the trace is exactly attempt-reauth-attempt, with
any further scripted responses unconsumed); a non-200 retry raises an API
error carrying the retry's status and body with no further retry; and a
first response that is neither 200 nor 401 raises an API error carrying
its status code and raw body after exactly one attempt, with no
re-authentication and no retry. -/
theorem claim_c7_make_request_retry (parse : String → PyVal)
    (r1 r2 : HttpResp) (rest : List HttpResp) :
    (r1.status = 401 →
      (makeRequest parse (r1 :: r2 :: rest)).2 =
        [.attempt 401, .reauth, .attempt r2.status] ∧
      (r2.status ≠ 200 →
        (makeRequest parse (r1 :: r2 :: rest)).1 =
          .error ⟨"API request failed after re-auth: " ++ toString r2.status,
            some r2.status, some r2.text⟩) ∧
      (r2.status = 200 →
        (makeRequest parse (r1 :: r2 :: rest)).1 = .ok (parse r2.text))) ∧
    (r1.status ≠ 401 → r1.status ≠ 200 →
      (makeRequest parse (r1 :: r2 :: rest)).2 = [.attempt r1.status] ∧
      (makeRequest parse (r1 :: r2 :: rest)).1 =
        .error ⟨"API request failed: " ++ toString r1.status ++ " - " ++ r1.text,
          some r1.status, some r1.text⟩) := by
  have hcons : makeRequest parse (r1 :: r2 :: rest) =
      if r1.status = 401 then
        (if r2.status ≠ 200 then
          (.error ⟨"API request failed after re-auth: " ++ toString r2.status,
              some r2.status, some r2.text⟩,
           [.attempt r1.status, .reauth, .attempt r2.status])
        else (.ok (parse r2.text), [.attempt r1.status, .reauth, .attempt r2.status]))
      else if r1.status ≠ 200 then
        (.error ⟨"API request failed: " ++ toString r1.status ++ " - " ++ r1.text,
            some r1.status, some r1.text⟩,
         [.attempt r1.status])
      else (.ok (parse r1.text), [.attempt r1.status]) := rfl
  constructor
  · intro h401
    rw [hcons, if_pos h401, h401]
    by_cases h2 : r2.status = 200
    · have hne : ¬ (r2.status ≠ 200) := fun hn => hn h2
      rw [if_neg hne]
      exact ⟨rfl, fun hn => absurd h2 hn, fun _ => rfl⟩
    · rw [if_pos h2]
      exact ⟨rfl, fun _ => rfl, fun he => absurd he h2⟩
  · intro hn401 hn200
    rw [hcons, if_neg hn401, if_pos hn200]
    exact ⟨rfl, rfl⟩

/-- Witness for `claim_c7_make_request_retry`: a 401 followed by a 500
yields the attempt-reauth-attempt trace and the post-re-auth API error;
a direct 503 yields a single attempt and the plain API error. -/
theorem claim_c7_make_request_retry_witness :
    (makeRequest (fun _ => PyVal.none)
      [⟨401, "unauthorized"⟩, ⟨500, "boom"⟩]).2 =
      [.attempt 401, .reauth, .attempt 500] ∧
    (makeRequest (fun _ => PyVal.none)
      [⟨401, "unauthorized"⟩, ⟨500, "boom"⟩]).1 =
      .error ⟨"API request failed after re-auth: 500", some 500, some "boom"⟩ ∧
    (makeRequest (fun _ => PyVal.none) [⟨503, "down"⟩, ⟨200, "ok"⟩]).1 =
      .error ⟨"API request failed: 503 - down", some 503, some "down"⟩ := by
  refine ⟨?_, ?_, ?_⟩
  · exact ((claim_c7_make_request_retry (fun _ => PyVal.none)
      ⟨401, "unauthorized"⟩ ⟨500, "boom"⟩ []).1 rfl).1
  · exact ((claim_c7_make_request_retry (fun _ => PyVal.none)
      ⟨401, "unauthorized"⟩ ⟨500, "boom"⟩ []).1 rfl).2.1 (by decide)
  · exact ((claim_c7_make_request_retry (fun _ => PyVal.none)
      ⟨503, "down"⟩ ⟨200, "ok"⟩ []).2 (by decide) (by decide)).2

/-! ## Contract-summary health checks
(src/workflow_handlers.py lines 369-406) -/

/-- The computed days remaining: `(end_date - datetime.now()).days`, with
dates as day numbers. -/
def daysRemaining (endDate now : Int) : Int :=
  endDate - now

/-- The end-date health flag of `handle_get_contract_summary`
(lines 378-389): strictly negative → EXPIRED, then `<= 30` → URGENT, then
`<= 90` → review soon. -/
def healthDateIssue (d : Int) : Option String :=
  if d < 0 then
    some ("Contract EXPIRED " ++ toString d.natAbs ++ " days ago")
  else if d ≤ 30 then
    some ("Contract expires in " ++ toString d ++ " days - URGENT")
  else if d ≤ 90 then
    some ("Contract expires in " ++ toString d ++ " days - review soon")
  else Option.none

/-- The workflow-state health flag (lines 403-405). -/
def statusIssue : PyVal → List String
  | .str s =>
    if s = "Draft" ∨ s = "Cancelled" ∨ s = "Expired" then
      ["Contract status is " ++ sqQuote s]
    else []
  | _ => []

/-- The `health_issues` list of `handle_get_contract_summary`
(lines 369-406): the date flag (absent when the end date is missing or
unparsable), then the missing-amount / missing-owner / unsigned checks by
Python truthiness, then the status check. -/
def contractHealthIssues (d : Option Int) (amount owner signed wfstate : PyVal) :
    List String :=
  (match d with
   | some dr => (healthDateIssue dr).toList
   | Option.none => []) ++
  (if pyFalsy amount then ["Missing contract amount"] else []) ++
  (if pyFalsy owner then ["No contract owner assigned"] else []) ++
  (if pyFalsy signed then ["Contract not yet signed"] else []) ++
  statusIssue wfstate

/-- C8 counterexample: at days-remaining exactly 0 the code flags URGENT
(`days_remaining < 0` is false, `<= 30` is true), not EXPIRED as the claim
("EXPIRED when days-remaining is at most 0") requires. -/
theorem claim_c8_counterexample :
    healthDateIssue 0 = some "Contract expires in 0 days - URGENT" ∧
    healthDateIssue 0 ≠ some "Contract EXPIRED 0 days ago" := by
  exact ⟨rfl, by decide⟩

/-- C8 amended: given a parseable end date, days-remaining
(`end_date - now` in days) is flagged EXPIRED when strictly negative,
URGENT when between 0 and 30, and review-soon when between 31 and 90;
and a falsy amount, falsy owner, falsy signature date, or a
Draft/Cancelled/Expired workflow state each contribute their health
issue.  (The original claim said EXPIRED at `<= 0`; at exactly 0 the code
flags URGENT, see `claim_c8_counterexample`.) -/
theorem claim_c8_contract_health (d : Int)
    (amount owner signed wfstate : PyVal) :
    (d < 0 → healthDateIssue d =
      some ("Contract EXPIRED " ++ toString d.natAbs ++ " days ago")) ∧
    (0 ≤ d → d ≤ 30 → healthDateIssue d =
      some ("Contract expires in " ++ toString d ++ " days - URGENT")) ∧
    (30 < d → d ≤ 90 → healthDateIssue d =
      some ("Contract expires in " ++ toString d ++ " days - review soon")) ∧
    (90 < d → healthDateIssue d = Option.none) ∧
    (pyFalsy amount = true →
      "Missing contract amount" ∈ contractHealthIssues (some d) amount owner signed wfstate) ∧
    (pyFalsy owner = true →
      "No contract owner assigned" ∈ contractHealthIssues (some d) amount owner signed wfstate) ∧
    (pyFalsy signed = true →
      "Contract not yet signed" ∈ contractHealthIssues (some d) amount owner signed wfstate) ∧
    (∀ s : String, wfstate = .str s → (s = "Draft" ∨ s = "Cancelled" ∨ s = "Expired") →
      ("Contract status is " ++ sqQuote s) ∈
        contractHealthIssues (some d) amount owner signed wfstate) := by
  refine ⟨?_, ?_, ?_, ?_, ?_, ?_, ?_, ?_⟩
  · intro h
    unfold healthDateIssue
    rw [if_pos h]
  · intro h0 h30
    unfold healthDateIssue
    rw [if_neg (by omega), if_pos h30]
  · intro h30 h90
    unfold healthDateIssue
    rw [if_neg (by omega), if_neg (by omega), if_pos h90]
  · intro h90
    unfold healthDateIssue
    rw [if_neg (by omega), if_neg (by omega), if_neg (by omega)]
  · intro h
    unfold contractHealthIssues
    rw [h]
    simp
  · intro h
    unfold contractHealthIssues
    rw [h]
    simp
  · intro h
    unfold contractHealthIssues
    rw [h]
    simp
  · intro s hs hmem
    unfold contractHealthIssues
    rw [hs]
    have hsi : statusIssue (.str s) =
        if s = "Draft" ∨ s = "Cancelled" ∨ s = "Expired" then
          ["Contract status is " ++ sqQuote s]
        else [] := rfl
    rw [hsi, if_pos hmem]
    simp

/-- Witness for `claim_c8_contract_health` at a contract 0 days from
expiry, with a missing amount and a Draft status. -/
theorem claim_c8_contract_health_witness :
    healthDateIssue (daysRemaining 100 100) =
      some ("Contract expires in " ++ toString (0 : Int) ++ " days - URGENT") ∧
    "Missing contract amount" ∈
      contractHealthIssues (some 0) PyVal.none (.str "o") (.str "s") (.str "Draft") ∧
    ("Contract status is " ++ sqQuote "Draft") ∈
      contractHealthIssues (some 0) PyVal.none (.str "o") (.str "s") (.str "Draft") := by
  refine ⟨?_, ?_, ?_⟩
  · exact (claim_c8_contract_health 0 PyVal.none (.str "o") (.str "s")
      (.str "Draft")).2.1 (by decide) (by decide)
  · exact (claim_c8_contract_health 0 PyVal.none (.str "o") (.str "s")
      (.str "Draft")).2.2.2.2.1 rfl
  · exact (claim_c8_contract_health 0 PyVal.none (.str "o") (.str "s")
      (.str "Draft")).2.2.2.2.2.2.2 "Draft" rfl (Or.inl rfl)

/-! ## Authentication lock (src/agiloft_client.py lines 68-75 and 160-165)

`ensure_authenticated` holds `self._auth_lock` around both the freshness
check and the `_authenticate()` call.  We model two concurrent callers of
`ensure_authenticated` as an interleaved transition system (asyncio is
cooperative: the synchronous freshness check is atomic; `_authenticate`
suspends, but the other task can only be blocked at lock acquisition) and
exhaustively check every interleaving.

The 401 branch of `_make_request` (line 162), by contrast, awaits
`self._authenticate()` directly, *outside* the lock; two tasks in that
branch can be inside `_authenticate` simultaneously. -/

/-- Joint state of two tasks running `ensure_authenticated`.
Program counters: 0 = before `async with self._auth_lock`, 1 = holding the
lock before the freshness check, 2 = about to run `_authenticate()`
(token stale), 3 = before releasing the lock, 4 = done. -/
structure AuthState where
  lock : Option Bool
  fresh : Bool
  auths : Nat
  pc0 : Nat
  pc1 : Nat
deriving DecidableEq, Repr

/-- One atomic step of task `i` in `ensure_authenticated`, `none` when the
task is blocked (waiting for the lock) or finished. -/
def taskStep (i : Bool) (s : AuthState) : Option AuthState :=
  match (if i then s.pc1 else s.pc0) with
  | 0 =>
    if s.lock = Option.none then
      some (if i then { s with lock := some i, pc1 := 1 }
            else { s with lock := some i, pc0 := 1 })
    else Option.none
  | 1 =>
    some (if i then { s with pc1 := if s.fresh then 3 else 2 }
          else { s with pc0 := if s.fresh then 3 else 2 })
  | 2 =>
    some (if i then { s with fresh := true, auths := s.auths + 1, pc1 := 3 }
          else { s with fresh := true, auths := s.auths + 1, pc0 := 3 })
  | 3 =>
    some (if i then { s with lock := Option.none, pc1 := 4 }
          else { s with lock := Option.none, pc0 := 4 })
  | _ => Option.none

/-- All states reachable in one scheduler step. -/
def authSuccessors (s : AuthState) : List AuthState :=
  (taskStep false s).toList ++ (taskStep true s).toList

/-- Both tasks start before the lock with an expired token. -/
def authInit : AuthState :=
  ⟨Option.none, false, 0, 0, 0⟩

/-- All states reachable from `authInit` in at most `n` scheduler steps. -/
def authReach : Nat → List AuthState
  | 0 => [authInit]
  | n + 1 =>
    let r := authReach n
    (r ++ r.flatMap authSuccessors).dedup

/-- Joint state of two tasks running the 401 branch of `_make_request`
(line 160-165).  Program counters: 0 = received the 401, about to await
`self._authenticate()`, 1 = inside `_authenticate` (login in flight),
2 = done.  The branch never touches `_auth_lock`. -/
structure ReauthState where
  lock : Option Bool
  pc0 : Nat
  pc1 : Nat
deriving DecidableEq, Repr

/-- One step of task `i` in the 401 branch: enter `_authenticate`, then
complete it; the lock is neither acquired nor checked, as in the source. -/
def reauthStep (i : Bool) (s : ReauthState) : Option ReauthState :=
  match (if i then s.pc1 else s.pc0) with
  | 0 => some (if i then { s with pc1 := 1 } else { s with pc0 := 1 })
  | 1 => some (if i then { s with pc1 := 2 } else { s with pc0 := 2 })
  | _ => Option.none

/-- The two-step schedule: task 0 enters `_authenticate`, then task 1
enters `_authenticate` as well. -/
def reauthRun : ReauthState :=
  match reauthStep false ⟨Option.none, 0, 0⟩ with
  | some s1 =>
    (match reauthStep true s1 with
     | some s2 => s2
     | Option.none => s1)
  | Option.none => ⟨Option.none, 0, 0⟩

/-- C9 counterexample: in the 401 re-authentication branch of
`_make_request` — which calls `self._authenticate()` directly instead of
going through the locked `ensure_authenticated` — a valid interleaving of
two concurrent requests puts both tasks inside `_authenticate`
simultaneously while nobody holds `_auth_lock`: an authentication that
does not execute inside the mutual-exclusion lock, refuting the claim's
"every authentication executes inside one mutual-exclusion lock". -/
theorem claim_c9_counterexample :
    reauthRun.pc0 = 1 ∧ reauthRun.pc1 = 1 ∧ reauthRun.lock = Option.none := by
  refine ⟨rfl, rfl, rfl⟩

/-- C9 amended: authentication performed via `ensure_authenticated` (the
freshness check and the login) does execute inside the lock: over every
interleaving of two concurrent callers arriving with an expired token —
`authReach 12` is closed under further steps, so it contains every
reachable state — at most one login ever happens, a completed run has
performed exactly one login and left a fresh token (the second caller
observed it without re-authenticating), and completion is reachable.
(The 401-triggered re-authentication in `_make_request` runs outside the
lock, see `claim_c9_counterexample`.) -/
theorem claim_c9_auth_lock_single_flight :
    (∀ s ∈ authReach 12, ∀ s2 ∈ authSuccessors s, s2 ∈ authReach 12) ∧
    (∀ s ∈ authReach 12, s.auths ≤ 1) ∧
    (∀ s ∈ authReach 12, s.pc0 = 4 ∧ s.pc1 = 4 → s.auths = 1 ∧ s.fresh = true) ∧
    (∃ s ∈ authReach 12, s.pc0 = 4 ∧ s.pc1 = 4) := by
  refine ⟨by decide, by decide, by decide, by decide⟩

/-- Witness for `claim_c9_auth_lock_single_flight` at the concrete
terminal state reached when the first caller authenticates and the second
observes the fresh token. -/
theorem claim_c9_auth_lock_single_flight_witness :
    (⟨Option.none, true, 1, 4, 4⟩ : AuthState).auths = 1 ∧
    (⟨Option.none, true, 1, 4, 4⟩ : AuthState).fresh = true :=
  claim_c9_auth_lock_single_flight.2.2.1 ⟨Option.none, true, 1, 4, 4⟩
    (by decide) ⟨rfl, rfl⟩

end Agiloft
